import Mathlib

set_option maxHeartbeats 1000000

/-!
Shallow embedding of `src/src/metaverse_builder.py` (BlackRoad-OS
metaverse-builder): entity model, SQLite-backed persistence gateway,
procedural generator and exporters, together with proofs of the spec's
claims about them.
-/

/-- Dynamically typed, JSON-serializable Python values: entries of the
free-form property bag, dataclass fields and SQLite cells are modelled by
this type. -/
inductive Val where
  | num : Rat → Val
  | str : String → Val
  | bool : Bool → Val
  | nil : Val
  | list : List Val → Val
  | dict : List (String × Val) → Val

/-- THEMES from the source (line 19). -/
def THEMES : List String :=
  ["cyberpunk", "fantasy", "space", "underwater", "desert", "arctic", "jungle", "neon"]

/-- OBJECT_TYPES from the source (line 20). -/
def OBJECT_TYPES : List String :=
  ["building", "tree", "light", "terrain", "water", "vehicle", "npc", "portal", "artifact"]

/-- THEME_COLORS, the fixed theme-to-accent-color table (lines 22-31). -/
def THEME_COLORS : List (String × String) :=
  [("cyberpunk", "#FF00FF"), ("fantasy", "#8B4513"), ("space", "#000080"),
   ("underwater", "#0000CD"), ("desert", "#F4A460"), ("arctic", "#F0F8FF"),
   ("jungle", "#228B22"), ("neon", "#FFFF00")]

/-- Deterministic model of CPython's process-global `random` generator
state.  The claims depend only on every draw being a deterministic
function of the last seed and of how many draws happened since that seed,
so a small congruential generator stands in for the Mersenne twister. -/
structure Rng where
  state : Nat
deriving DecidableEq

/-- Model of `random.seed(s)`: the resulting generator state is a function
of the seed alone. -/
def seedRng (seed : Int) : Rng := ⟨seed.natAbs % 2147483648⟩

/-- One raw draw from the generator. -/
def rngNext (r : Rng) : Nat × Rng :=
  let n := (r.state * 1103515245 + 12345) % 2147483648
  (n, ⟨n⟩)

/-- Model of `random.randint(lo, hi)`: a uniform integer in `[lo, hi]`
(both endpoints included), consuming one draw. -/
def randint (lo hi : Int) (r : Rng) : Int × Rng :=
  let p := rngNext r
  (lo + (p.1 : Int) % (hi - lo + 1), p.2)

/-- Model of `random.uniform(lo, hi)`: a number in `[lo, hi]`, consuming
one draw; the Python float is modelled as a rational.  The value is
`lo + (n / 1000000) * (hi - lo)` for the draw `n < 1000000`, written as a
single `mkRat` over a common denominator so that it evaluates by kernel
reduction. -/
def py_uniform (lo hi : Rat) (r : Rng) : Rat × Rng :=
  let p := rngNext r
  let n : Int := (p.1 % 1000000 : Nat)
  (mkRat (lo.num * ((hi.den : Int) * 1000000) + n * (hi.num * lo.den - lo.num * hi.den))
    (lo.den * hi.den * 1000000), p.2)

/-- The float timestamp `datetime.now().timestamp()` in seconds, given the
clock reading in milliseconds. -/
def secondsOfMs (tMs : Nat) : Rat := mkRat tMs 1000

/-- Dataclass `WorldObject` (lines 34-49).  `scale`, `rotation` and
`color` hold whatever value the property bag supplied, so they are
dynamically typed; `__post_init__` turns a missing property map into an
empty one, modelled by the `[]` default. -/
structure WorldObject where
  id : String
  type_ : String
  name : String
  x : Rat
  y : Rat
  z : Rat
  scale : Val := Val.num 1
  rotation : Val := Val.num 0
  color : Val := Val.str "#FFFFFF"
  properties : List (String × Val) := []

/-- Dataclass `MetaverseWorld` (lines 52-65).  `created_at` is dynamically
typed (`Val`): `get_world` in the source in fact stores the description
string in this field (see `lookupWorld` below). -/
structure MetaverseWorld where
  id : String
  name : String
  theme : String
  seed : Int
  size : Int
  objects : List WorldObject := []
  created_at : Val := Val.num 0
  description : String := ""

/-- A row of the `worlds` table (columns in schema order, lines 76-86). -/
structure WorldRow where
  id : String
  name : String
  theme : String
  seed : Int
  size : Int
  created_at : Rat
  description : String
deriving DecidableEq

/-- A row of the `world_objects` table (lines 87-102).  The `properties`
column stores `json.dumps` of a Python dict; since `json.loads` inverts
`json.dumps` on JSON-serializable dicts (preserving key order), the column
is modelled by the key-value list itself. -/
structure ObjectRow where
  id : String
  world_id : String
  type_ : String
  name : String
  x : Rat
  y : Rat
  z : Rat
  scale : Val
  rotation : Val
  color : Val
  properties : List (String × Val)

/-- A row of the `player_positions` table (lines 103-113). -/
structure PlayerPosRow where
  player_id : String
  world_id : String
  x : Rat
  y : Rat
  z : Rat
  teleported_at : Rat
deriving DecidableEq

/-- The SQLite database contents, one list per table, in insertion
(rowid) order. -/
structure DB where
  worlds : List WorldRow
  world_objects : List ObjectRow
  player_positions : List PlayerPosRow

/-- Process state: database plus the two ambient effects the source
uses — the global `random` generator, and `datetime.now()`.  The clock is
modelled as a stream: the k-th call to `datetime.now()` in the process
returns `timeMsStream k` milliseconds (the float timestamp in seconds is
that value divided by 1000). -/
structure PyState where
  db : DB
  rng : Rng
  timeMsStream : Nat → Nat
  tick : Nat

/-- Errors the source can raise: `ValueError` with its message,
`sqlite3.IntegrityError` (primary-key violation), and `TypeError`
(e.g. `datetime.fromtimestamp` applied to a non-number). -/
inductive Err where
  | valueError : String → Err
  | integrityError : Err
  | typeError : Err
deriving DecidableEq

/-- Computation model: Python's sequential, exception-propagating
execution over `PyState`.  A raised exception keeps the state reached so
far (commits already performed stay performed). -/
def M (α : Type) : Type := PyState → Except Err α × PyState

def M.pure (a : α) : M α := fun s => (.ok a, s)

def M.bind (x : M α) (f : α → M β) : M β := fun s =>
  match x s with
  | (.ok a, s') => f a s'
  | (.error e, s') => (.error e, s')

instance : Monad M where
  pure := M.pure
  bind := M.bind

def throwE (e : Err) : M α := fun s => (.error e, s)

/-- `random.seed(world.seed)`. -/
def seedM (seed : Int) : M Unit := fun s => (.ok (), { s with rng := seedRng seed })

/-- `random.randint(lo, hi)` acting on the global generator. -/
def randintM (lo hi : Int) : M Int := fun s =>
  let p := randint lo hi s.rng
  (.ok p.1, { s with rng := p.2 })

/-- `random.uniform(lo, hi)` acting on the global generator. -/
def uniformM (lo hi : Rat) : M Rat := fun s =>
  let p := py_uniform lo hi s.rng
  (.ok p.1, { s with rng := p.2 })

/-- `int(datetime.now().timestamp() * 1000)`: the current clock reading in
milliseconds, advancing the clock stream. -/
def nowMs : M Nat := fun s =>
  (.ok (s.timeMsStream s.tick), { s with tick := s.tick + 1 })

/-- `INSERT INTO worlds ...` (lines 127-131): SQLite enforces the primary
key on `id`, raising `IntegrityError` on a duplicate. -/
def insertWorldRow (row : WorldRow) : M Unit := fun s =>
  if s.db.worlds.any (fun w => w.id == row.id) then
    (.error .integrityError, s)
  else
    (.ok (), { s with db := { s.db with worlds := s.db.worlds ++ [row] } })

/-- `INSERT INTO world_objects ...` (lines 154-159): primary key on `id`. -/
def insertObjectRow (row : ObjectRow) : M Unit := fun s =>
  if s.db.world_objects.any (fun o => o.id == row.id) then
    (.error .integrityError, s)
  else
    (.ok (), { s with db := { s.db with world_objects := s.db.world_objects ++ [row] } })

/-- `create_world` (lines 116-134). -/
def create_world (name theme : String) (seed? : Option Int) (size : Int := 1024) :
    M MetaverseWorld := do
  if theme ∉ THEMES then
    throwE (.valueError ("Invalid theme. Choose from: " ++ String.intercalate ", " THEMES))
  else
    let seed ← match seed? with
      | none => randintM 1 1000000
      | some sd => M.pure sd
    let tMs ← nowMs
    let now : Rat := secondsOfMs tMs
    let world_id := "world_" ++ toString tMs
    insertWorldRow ⟨world_id, name, theme, seed, size, now, "A " ++ theme ++ " metaverse world"⟩
    -- the returned dataclass omits the description argument, so it keeps its default ""
    M.pure { id := world_id, name := name, theme := theme, seed := seed, size := size,
             objects := [], created_at := Val.num now, description := "" }

/-- Rebuilding a `WorldObject` from its row, as the comprehension in
`get_world` does (lines 175-178): the 10 selected columns line up with the
first 10 dataclass fields. -/
def objOfRow (r : ObjectRow) : WorldObject :=
  ⟨r.id, r.type_, r.name, r.x, r.y, r.z, r.scale, r.rotation, r.color, r.properties⟩

/-- The pure content of `get_world` (lines 164-180).  `SELECT * FROM
worlds` yields the 7 columns `(id, name, theme, seed, size, created_at,
description)`, and `MetaverseWorld(*row)` binds them POSITIONALLY to the
first 7 dataclass fields `(id, name, theme, seed, size, objects,
created_at)`: the `created_at` cell lands in `objects` (overwritten just
below by the loaded object list), the `description` cell — a string —
lands in `created_at`, and `description` keeps its default `""`. -/
def lookupWorld (db : DB) (world_id : String) : Option MetaverseWorld :=
  match db.worlds.find? (fun w => w.id == world_id) with
  | none => none
  | some row =>
      some { id := row.id, name := row.name, theme := row.theme, seed := row.seed,
             size := row.size,
             objects := (db.world_objects.filter (fun o => o.world_id == world_id)).map objOfRow,
             created_at := Val.str row.description,
             description := "" }

/-- `get_world` (lines 164-180): a read-only operation. -/
def get_world (world_id : String) : M (Option MetaverseWorld) := fun s =>
  (.ok (lookupWorld s.db world_id), s)

/-- The invalid-type message of `add_object` (line 142). -/
def invalidTypeMsg : String :=
  "Invalid type. Choose from: " ++ String.intercalate ", " OBJECT_TYPES

/-- `add_object` (lines 136-162).  The keyword-argument bag `**props` is a
Python dict, modelled as a key-value list; `props.get(k, d)` is
`(props.lookup k).getD d` and the dict comprehension dropping the three
extracted keys is a filter. -/
def add_object (world_id type_ name : String) (x y z : Rat)
    (props : List (String × Val)) : M WorldObject := do
  if type_ ∉ OBJECT_TYPES then
    throwE (.valueError invalidTypeMsg)
  else
    let world? ← get_world world_id
    match world? with
    | none => throwE (.valueError ("World " ++ world_id ++ " not found"))
    | some world =>
      let tMs ← nowMs
      let obj_id := "obj_" ++ toString tMs
      let scale := (props.lookup "scale").getD (Val.num 1)
      let rotation := (props.lookup "rotation").getD (Val.num 0)
      let color := (props.lookup "color").getD
        (Val.str ((THEME_COLORS.lookup world.theme).getD "#FFFFFF"))
      let properties := props.filter (fun kv => kv.1 ∉ ["scale", "rotation", "color"])
      insertObjectRow ⟨obj_id, world_id, type_, name, x, y, z, scale, rotation, color, properties⟩
      M.pure ⟨obj_id, type_, name, x, y, z, scale, rotation, color, properties⟩

/-- `_get_terrain_color` (lines 204-216): the theme-to-terrain-color
table, with the neutral-gray fallback. -/
def get_terrain_color (theme : String) : String :=
  (([("cyberpunk", "#1a1a2e"), ("fantasy", "#8B7355"), ("space", "#1a1a3a"),
     ("underwater", "#006994"), ("desert", "#C2B280"), ("arctic", "#FFFAFA"),
     ("jungle", "#355C3D"), ("neon", "#00FF00")] : List (String × String)).lookup
    theme).getD "#808080"

/-- Sequential iteration of a `for` loop body over a list of indices;
an exception raised by the body aborts the remaining iterations. -/
def forEachM (f : α → M Unit) : List α → M Unit
  | [] => M.pure ()
  | a :: rest => M.bind (f a) (fun _ => forEachM f rest)

/-- The row-major cell order of the nested terrain loops (i outer, j
inner; lines 193-194). -/
def cellPairs (g : Nat) : List (Nat × Nat) :=
  (List.range g).flatMap (fun i => (List.range g).map (fun j => (i, j)))

/-- One iteration of the terrain loop body (lines 195-202): the height is
drawn, then the tile is added through `add_object`. -/
def terrainStep (world_id theme : String) (ij : Nat × Nat) : M Unit := do
  let height ← randintM (-10) 50
  let _ ← add_object world_id "terrain"
    ("terrain_" ++ toString ij.1 ++ "_" ++ toString ij.2)
    ((ij.1 * 256 : Nat) : Rat) (height : Rat) ((ij.2 * 256 : Nat) : Rat)
    [("scale", Val.num 256), ("color", Val.str (get_terrain_color theme))]
  M.pure ()

/-- `generate_terrain` (lines 182-202).  `int(world.size / 256)` is the
real quotient truncated toward zero, i.e. `Int.tdiv`; `range(0, g)` of a
non-positive `g` is empty, matching `.toNat`. -/
def generate_terrain (world_id : String) : M Unit := do
  let world? ← get_world world_id
  match world? with
  | none => throwE (.valueError ("World " ++ world_id ++ " not found"))
  | some world => do
    seedM world.seed
    let grid_size := world.size.tdiv 256
    forEachM (terrainStep world_id world.theme) (cellPairs grid_size.toNat)

/-- One iteration of the building loop (lines 227-230). -/
def buildingStep (world_id theme : String) (size : Int) (i : Nat) : M Unit := do
  let x ← uniformM 0 (size : Rat)
  let z ← uniformM 0 (size : Rat)
  let _ ← add_object world_id "building" (theme ++ "_building_" ++ toString i)
    x 20 z [("scale", Val.num 20)]
  M.pure ()

/-- One iteration of the tree loop (lines 233-237). -/
def treeStep (world_id : String) (size : Int) (i : Nat) : M Unit := do
  let x ← uniformM 0 (size : Rat)
  let z ← uniformM 0 (size : Rat)
  let _ ← add_object world_id "tree" ("tree_" ++ toString i) x 5 z [("scale", Val.num 5)]
  M.pure ()

/-- One iteration of the light loop (lines 240-243). -/
def lightStep (world_id : String) (size : Int) (i : Nat) : M Unit := do
  let x ← uniformM 0 (size : Rat)
  let z ← uniformM 0 (size : Rat)
  let _ ← add_object world_id "light" ("light_" ++ toString i) x 100 z
    [("scale", Val.num 2), ("color", Val.str "#FFFF00")]
  M.pure ()

/-- The theme-keyed special-object chain of `populate_world`
(lines 245-251). -/
def specialStep (world_id theme : String) : M Unit := do
  if theme == "cyberpunk" then
    let _ ← add_object world_id "npc" "neon_runner" 500 50 500
      [("scale", Val.num 2), ("color", Val.str "#FF00FF")]
    M.pure ()
  else if theme == "fantasy" then
    let _ ← add_object world_id "artifact" "ancient_stone" 512 20 512
      [("scale", Val.num 10), ("color", Val.str "#808080")]
    M.pure ()
  else if theme == "space" then
    let _ ← add_object world_id "portal" "stargate" 512 100 512
      [("scale", Val.num 50), ("color", Val.str "#00FFFF")]
    M.pure ()
  else
    M.pure ()

/-- `populate_world` (lines 218-253).  The trailing `self.conn.commit()`
has no observable effect in the model. -/
def populate_world (world_id : String) : M Unit := do
  let world? ← get_world world_id
  match world? with
  | none => throwE (.valueError ("World " ++ world_id ++ " not found"))
  | some world => do
    seedM world.seed
    forEachM (buildingStep world_id world.theme world.size) (List.range 8)
    if world.theme ∉ ["space", "underwater"] then
      forEachM (treeStep world_id world.size) (List.range 15)
    else
      M.pure ()
    forEachM (lightStep world_id world.size) (List.range 4)
    specialStep world_id world.theme

/-- Abstract model of `datetime.fromtimestamp(t).isoformat()`: for a
numeric timestamp it yields a human-readable string determined by the
timestamp; any non-numeric argument makes `fromtimestamp` raise
`TypeError`. -/
def fromtimestamp_isoformat : Val → Except Err String
  | Val.num t => .ok ("iso:" ++ toString t)
  | _ => .error .typeError

/-- One object descriptor of the generic JSON export (lines 263-272). -/
structure ObjectDescriptor where
  id : String
  type_ : String
  name : String
  position : Rat × Rat × Rat
  scale : Val
  rotation : Val
  color : Val
  properties : List (String × Val)

/-- The generic JSON export structure (lines 274-282). -/
structure ExportedScene where
  id : String
  name : String
  theme : String
  seed : Int
  size : Int
  objects : List ObjectDescriptor
  created_at : String

/-- The descriptor built for one object in `export_json` (lines 263-272). -/
def descriptorOf (obj : WorldObject) : ObjectDescriptor :=
  ⟨obj.id, obj.type_, obj.name, (obj.x, obj.y, obj.z), obj.scale, obj.rotation,
   obj.color, obj.properties⟩

/-- `export_json` (lines 255-282): the descriptor list is built first, and
`datetime.fromtimestamp(world.created_at)` is evaluated while assembling
the result dict. -/
def export_json (world_id : String) : M ExportedScene := do
  let world? ← get_world world_id
  match world? with
  | none => throwE (.valueError ("World " ++ world_id ++ " not found"))
  | some world =>
    let objects_data := world.objects.map descriptorOf
    match fromtimestamp_isoformat world.created_at with
    | .error e => throwE e
    | .ok created =>
      M.pure { id := world.id, name := world.name, theme := world.theme,
               seed := world.seed, size := world.size, objects := objects_data,
               created_at := created }

/-- One node of the glTF stub (lines 295-299). -/
structure GltfNode where
  name : String
  translation : Rat × Rat × Rat
  scale : Val × Val × Val

/-- One scene entry of the glTF stub (line 293). -/
structure GltfScene where
  name : String
  nodes : List Nat
deriving DecidableEq

/-- The placeholder mesh entry of the glTF stub (line 302). -/
def meshStub : Val :=
  Val.dict [("primitives", Val.list [Val.dict [("attributes", Val.dict [])]])]

/-- The glTF stub structure (lines 290-303). -/
structure GltfStub where
  asset_version : String
  asset_generator : String
  scene : Nat
  scenes : List GltfScene
  nodes : List GltfNode
  meshes : List Val

/-- The node built for one object in `export_gltf_stub` (lines 295-299). -/
def nodeOf (obj : WorldObject) : GltfNode :=
  ⟨obj.name, (obj.x, obj.y, obj.z), (obj.scale, obj.scale, obj.scale)⟩

/-- `export_gltf_stub` (lines 284-303). -/
def export_gltf_stub (world_id : String) : M GltfStub := do
  let world? ← get_world world_id
  match world? with
  | none => throwE (.valueError ("World " ++ world_id ++ " not found"))
  | some world =>
    M.pure { asset_version := "2.0", asset_generator := "MetaverseBuilder",
             scene := 0,
             scenes := [⟨world.name, List.range world.objects.length⟩],
             nodes := world.objects.map nodeOf,
             meshes := world.objects.map (fun _ => meshStub) }

/-- The object-id prefixing scheme of `add_object` (line 148), given the
clock reading in milliseconds. -/
def objIdOfMs (tMs : Nat) : String := "obj_" ++ toString tMs

/-- The ids `add_object` will generate for `n` consecutive calls starting
at clock position `t0` of the stream `tms`. -/
def genIds (tms : Nat → Nat) (t0 n : Nat) : List String :=
  (List.range n).map (fun k => objIdOfMs (tms (t0 + k)))

/-- The generator state after one raw draw. -/
def rngShift (r : Rng) : Rng := (rngNext r).2

/-- The generator state after `n` raw draws. -/
def rngSteps (r : Rng) (n : Nat) : Rng := rngShift^[n] r

/-- The row a successful `add_object` call inserts (lines 148-158), given
the owning world's theme and the clock reading used for the id. -/
def addedRow (wid ty nm : String) (x y z : Rat) (props : List (String × Val))
    (theme : String) (tMs : Nat) : ObjectRow :=
  ⟨objIdOfMs tMs, wid, ty, nm, x, y, z,
   (props.lookup "scale").getD (Val.num 1),
   (props.lookup "rotation").getD (Val.num 0),
   (props.lookup "color").getD (Val.str ((THEME_COLORS.lookup theme).getD "#FFFFFF")),
   props.filter (fun kv => kv.1 ∉ ["scale", "rotation", "color"])⟩

/-- Common shape of the three population loops: draw `x`, draw `z`, then
add one object of a fixed type with an index-dependent name, a fixed
height and a fixed property bag. -/
def pairUniformStep (wid ty : String) (nameF : Nat → String) (yc : Rat)
    (props : List (String × Val)) (size : Int) (i : Nat) : M Unit := do
  let x ← uniformM 0 (size : Rat)
  let z ← uniformM 0 (size : Rat)
  let _ ← add_object wid ty (nameF i) x yc z props
  M.pure ()

/-- The rows appended by a successful run of the terrain loop over the
cell list `L`, starting from generator state `r` and clock position
`t0`. -/
def terrainRowsFrom (wid theme : String) (tms : Nat → Nat) (r : Rng) (t0 : Nat) :
    List (Nat × Nat) → List ObjectRow
  | [] => []
  | ij :: rest =>
    let p := randint (-10) 50 r
    addedRow wid "terrain" ("terrain_" ++ toString ij.1 ++ "_" ++ toString ij.2)
        ((ij.1 * 256 : Nat) : Rat) (p.1 : Rat) ((ij.2 * 256 : Nat) : Rat)
        [("scale", Val.num 256), ("color", Val.str (get_terrain_color theme))] theme (tms t0)
      :: terrainRowsFrom wid theme tms p.2 (t0 + 1) rest

/-- The rows appended by a successful run of one population loop over the
index list `L`, starting from generator state `r` and clock position
`t0`. -/
def pairRowsFrom (wid ty : String) (nameF : Nat → String) (yc : Rat)
    (props : List (String × Val)) (theme : String) (size : Int)
    (tms : Nat → Nat) (r : Rng) (t0 : Nat) : List Nat → List ObjectRow
  | [] => []
  | i :: rest =>
    let p1 := py_uniform 0 (size : Rat) r
    let p2 := py_uniform 0 (size : Rat) p1.2
    addedRow wid ty (nameF i) p1.1 yc p2.1 props theme (tms t0)
      :: pairRowsFrom wid ty nameF yc props theme size tms p2.2 (t0 + 1) rest

/-- `teleport` (lines 322-337): the INSERT violates the composite primary
key exactly when a row for `(player_id, world_id)` already exists; the
`IntegrityError` is caught and turned into an UPDATE of every row matching
the pair. -/
def teleport (world_id player_id : String) (x y z : Rat) : M Unit := do
  let tMs ← nowMs
  let now : Rat := secondsOfMs tMs
  fun s =>
    if s.db.player_positions.any
        (fun r => r.player_id == player_id && r.world_id == world_id) then
      let pp := s.db.player_positions.map (fun r =>
        if r.player_id == player_id && r.world_id == world_id then
          { r with x := x, y := y, z := z, teleported_at := now }
        else r)
      (.ok (), { s with db := { s.db with player_positions := pp } })
    else
      let pp := s.db.player_positions ++ [⟨player_id, world_id, x, y, z, now⟩]
      (.ok (), { s with db := { s.db with player_positions := pp } })

/-- The mutating generation commands of claim C8: any interleaving of
`add_object`, `generate_terrain` and `populate_world` calls. -/
inductive Cmd where
  | addObj : String → String → String → Rat → Rat → Rat → List (String × Val) → Cmd
  | genTerrain : String → Cmd
  | populate : String → Cmd

def runCmd : Cmd → M Unit
  | .addObj wid ty nm x y z props => M.bind (add_object wid ty nm x y z props) (fun _ => M.pure ())
  | .genTerrain wid => generate_terrain wid
  | .populate wid => populate_world wid

/-- A straight-line script of commands: an uncaught exception aborts the
remaining commands, keeping the state reached so far. -/
def runCmds : List Cmd → M Unit
  | [] => M.pure ()
  | c :: rest => M.bind (runCmd c) (fun _ => runCmds rest)

/-- The object-id uniqueness invariant of the `world_objects` table. -/
def ObjIdsOk (db : DB) : Prop :=
  (db.world_objects.map (fun o => o.id)).Nodup


/-- `int(world.size / 256)` (line 192) as a grid dimension: real division
truncated toward zero, clamped to zero for `range`. -/
def gridSizeOf (size : Int) : Nat := (size.tdiv 256).toNat
/-- Number of trees population adds (15, or 0 for space/underwater;
lines 233-237). -/
def treeCount (theme : String) : Nat :=
  if theme ∈ (["space", "underwater"] : List String) then 0 else 15
/-- Number of special objects population adds (lines 245-251). -/
def specialCount (theme : String) : Nat :=
  if theme == "cyberpunk" then 1 else if theme == "fantasy" then 1
  else if theme == "space" then 1 else 0
/-- Total number of objects a successful `populate_world` adds. -/
def popCount (theme : String) : Nat := 8 + treeCount theme + 4 + specialCount theme
/-- Number of raw generator draws `populate_world` makes. -/
def popDraws (theme : String) : Nat := 16 + 2 * treeCount theme + 8
/-- The special-object rows appended at clock position `t2`
(lines 245-251). -/
def specialRowsFor (wid theme : String) (tms : Nat → Nat) (t2 : Nat) : List ObjectRow :=
  if theme == "cyberpunk" then
    [addedRow wid "npc" "neon_runner" 500 50 500 [("scale", Val.num 2), ("color", Val.str "#FF00FF")] theme (tms t2)]
  else if theme == "fantasy" then
    [addedRow wid "artifact" "ancient_stone" 512 20 512 [("scale", Val.num 10), ("color", Val.str "#808080")] theme (tms t2)]
  else if theme == "space" then
    [addedRow wid "portal" "stargate" 512 100 512 [("scale", Val.num 50), ("color", Val.str "#00FFFF")] theme (tms t2)]
  else []
/-- The rows a successful `populate_world` appends: buildings, trees,
lights, then the special object. -/
def popRows (wid theme : String) (size : Int) (tms : Nat → Nat) (r0 : Rng) (t0 : Nat) :
    List ObjectRow :=
  let b := pairRowsFrom wid "building" (fun i => theme ++ "_building_" ++ toString i) 20
    [("scale", Val.num 20)] theme size tms r0 t0 (List.range 8)
  let r1 := rngSteps r0 16
  let t := if theme ∈ (["space", "underwater"] : List String) then [] else
    pairRowsFrom wid "tree" (fun i => "tree_" ++ toString i) 5 [("scale", Val.num 5)] theme
      size tms r1 (t0 + 8) (List.range 15)
  let r2 := rngSteps r1 (2 * treeCount theme)
  let l := pairRowsFrom wid "light" (fun i => "light_" ++ toString i) 100
    [("scale", Val.num 2), ("color", Val.str "#FFFF00")] theme size tms r2
    (t0 + 8 + treeCount theme) (List.range 4)
  b ++ (t ++ (l ++ specialRowsFor wid theme tms (t0 + 8 + treeCount theme + 4)))
/-- The k-th height drawn by the terrain loop started from generator
state `r`. -/
def heightAt (r : Rng) (k : Nat) : Int := (randint (-10) 50 (rngSteps r k)).1
/-- A program preserves the object-id uniqueness invariant, whatever its
result (also when it raises). -/
def KeepsIds (prog : M α) : Prop :=
  ∀ s, ObjIdsOk s.db → ObjIdsOk ((prog s).2).db
def tmsId : Nat → Nat := fun k => k
def emptyDB : DB := { worlds := [], world_objects := [], player_positions := [] }
def stateW : PyState := { db := emptyDB, rng := seedRng 0, timeMsStream := tmsId, tick := 0 }
def auroraRow : WorldRow :=
  ⟨"world_0", "Aurora", "arctic", 42, 512, secondsOfMs 0, "A arctic metaverse world"⟩
def stateAurora : PyState :=
  { db := { worlds := [auroraRow], world_objects := [], player_positions := [] },
    rng := seedRng 0, timeMsStream := tmsId, tick := 1 }
def auroraTerrainRows : List ObjectRow :=
  terrainRowsFrom "world_0" "arctic" tmsId (seedRng 42) 1 (cellPairs 2)
def stateAuroraTerrain : PyState :=
  { db := { worlds := [auroraRow], world_objects := auroraTerrainRows, player_positions := [] },
    rng := rngSteps (seedRng 42) 4, timeMsStream := tmsId, tick := 5 }
def auroraPopRows : List ObjectRow := popRows "world_0" "arctic" 512 tmsId (seedRng 42) 5
def stateAuroraPop : PyState :=
  { db := { worlds := [auroraRow], world_objects := auroraTerrainRows ++ auroraPopRows, player_positions := [] },
    rng := rngSteps (seedRng 42) 54, timeMsStream := tmsId, tick := 32 }
def c7props : List (String × Val) := [("color", Val.str "#123456"), ("growth", Val.num 7)]
def c7row : ObjectRow := addedRow "world_0" "tree" "t1" 1 2 3 c7props "arctic" (tmsId 1)
def c7state : PyState :=
  { db := { worlds := [auroraRow], world_objects := [c7row], player_positions := [] },
    rng := seedRng 0, timeMsStream := tmsId, tick := 2 }

theorem bind_apply (x : M α) (f : α → M β) (s : PyState) :
    M.bind x f s = match x s with
      | (.ok a, s') => f a s'
      | (.error e, s') => (.error e, s') := rfl

theorem monad_bind_eq (x : M α) (f : α → M β) : x >>= f = M.bind x f := rfl

theorem monad_pure_eq (a : α) : (pure a : M α) = M.pure a := rfl

/-- Complete behaviour of `add_object`: type validation, world lookup,
primary-key check, and on success the exact inserted row and returned
object. -/
theorem add_object_run (wid ty nm : String) (x y z : Rat)
    (props : List (String × Val)) (s : PyState) :
    add_object wid ty nm x y z props s =
      if ty ∈ OBJECT_TYPES then
        match s.db.worlds.find? (fun w => w.id == wid) with
        | none => (.error (.valueError ("World " ++ wid ++ " not found")), s)
        | some wrow =>
          let row := addedRow wid ty nm x y z props wrow.theme (s.timeMsStream s.tick)
          let sTicked : PyState := { s with tick := s.tick + 1 }
          let objs := s.db.world_objects
          if objs.any (fun o => o.id == row.id) then
            (.error .integrityError, sTicked)
          else
            (.ok (objOfRow row), { sTicked with db := { s.db with world_objects := objs ++ [row] } })
      else (.error (.valueError invalidTypeMsg), s) := by
  by_cases hty : ty ∈ OBJECT_TYPES
  · have hty' : ¬ (ty ∉ OBJECT_TYPES) := not_not_intro hty
    unfold add_object
    rw [if_neg hty', if_pos hty]
    cases hfind : s.db.worlds.find? (fun w => w.id == wid) with
    | none =>
      simp only [monad_bind_eq, bind_apply, get_world, lookupWorld, hfind, throwE]
    | some wrow =>
      simp only [monad_bind_eq, bind_apply, get_world, lookupWorld, hfind, nowMs,
        insertObjectRow, M.pure, monad_pure_eq, addedRow, objIdOfMs, objOfRow]
      cases hcol : s.db.world_objects.any
          (fun o => o.id == "obj_" ++ toString (s.timeMsStream s.tick)) <;>
        simp [hcol]
  · unfold add_object
    rw [if_pos hty, if_neg hty]
    rfl

theorem genIds_zero (tms : Nat → Nat) (t0 : Nat) : genIds tms t0 0 = [] := rfl

theorem genIds_succ (tms : Nat → Nat) (t0 n : Nat) :
    genIds tms t0 (n + 1) = objIdOfMs (tms t0) :: genIds tms (t0 + 1) n := by
  have h : (fun k => objIdOfMs (tms (t0 + (k + 1)))) = (fun k => objIdOfMs (tms (t0 + 1 + k))) := by
    funext k
    have hk : t0 + (k + 1) = t0 + 1 + k := by omega
    rw [hk]
  simp only [genIds, List.range_succ_eq_map, List.map_cons, Nat.add_zero, List.map_map,
    Function.comp_def, h]

theorem genIds_append (tms : Nat → Nat) (t0 m n : Nat) :
    genIds tms t0 (m + n) = genIds tms t0 m ++ genIds tms (t0 + m) n := by
  have h : (fun k => objIdOfMs (tms (t0 + (m + k)))) = (fun k => objIdOfMs (tms (t0 + m + k))) := by
    funext k
    have hk : t0 + (m + k) = t0 + m + k := by omega
    rw [hk]
  simp only [genIds, List.range_add, List.map_append, List.map_map, Function.comp_def, h]

theorem rngSteps_zero (r : Rng) : rngSteps r 0 = r := rfl

theorem rngSteps_succ (r : Rng) (n : Nat) :
    rngSteps r (n + 1) = rngSteps (rngNext r).2 n :=
  Function.iterate_succ_apply rngShift n r

theorem rngSteps_add (r : Rng) (n m : Nat) :
    rngSteps (rngSteps r n) m = rngSteps r (m + n) :=
  (Function.iterate_add_apply rngShift m n r).symm

theorem randint_rng (lo hi : Int) (r : Rng) : (randint lo hi r).2 = (rngNext r).2 := rfl

theorem py_uniform_rng (lo hi : Rat) (r : Rng) : (py_uniform lo hi r).2 = (rngNext r).2 := rfl

theorem terrainRowsFrom_nil (wid theme : String) (tms : Nat → Nat) (r : Rng) (t0 : Nat) :
    terrainRowsFrom wid theme tms r t0 [] = [] := rfl

theorem terrainRowsFrom_length (wid theme : String) (tms : Nat → Nat) :
    ∀ (L : List (Nat × Nat)) (r : Rng) (t0 : Nat),
      (terrainRowsFrom wid theme tms r t0 L).length = L.length := by
  intro L
  induction L with
  | nil => intro r t0; rfl
  | cons ij rest ih =>
    intro r t0
    simp [terrainRowsFrom, ih]

theorem terrainRowsFrom_ids (wid theme : String) (tms : Nat → Nat) :
    ∀ (L : List (Nat × Nat)) (r : Rng) (t0 : Nat),
      (terrainRowsFrom wid theme tms r t0 L).map (fun o => o.id) =
        genIds tms t0 L.length := by
  intro L
  induction L with
  | nil => intro r t0; rfl
  | cons ij rest ih =>
    intro r t0
    simp [terrainRowsFrom, ih, genIds_succ, addedRow, List.length_cons]

theorem pairRowsFrom_nil (wid ty : String) (nameF : Nat → String) (yc : Rat)
    (props : List (String × Val)) (theme : String) (size : Int) (tms : Nat → Nat)
    (r : Rng) (t0 : Nat) :
    pairRowsFrom wid ty nameF yc props theme size tms r t0 [] = [] := rfl

theorem pairRowsFrom_length (wid ty : String) (nameF : Nat → String) (yc : Rat)
    (props : List (String × Val)) (theme : String) (size : Int) (tms : Nat → Nat) :
    ∀ (L : List Nat) (r : Rng) (t0 : Nat),
      (pairRowsFrom wid ty nameF yc props theme size tms r t0 L).length = L.length := by
  intro L
  induction L with
  | nil => intro r t0; rfl
  | cons i rest ih =>
    intro r t0
    simp [pairRowsFrom, ih]

theorem pairRowsFrom_ids (wid ty : String) (nameF : Nat → String) (yc : Rat)
    (props : List (String × Val)) (theme : String) (size : Int) (tms : Nat → Nat) :
    ∀ (L : List Nat) (r : Rng) (t0 : Nat),
      (pairRowsFrom wid ty nameF yc props theme size tms r t0 L).map (fun o => o.id) =
        genIds tms t0 L.length := by
  intro L
  induction L with
  | nil => intro r t0; rfl
  | cons i rest ih =>
    intro r t0
    simp [pairRowsFrom, ih, genIds_succ, addedRow, List.length_cons]

theorem pairRowsFrom_mem (wid ty : String) (nameF : Nat → String) (yc : Rat)
    (props : List (String × Val)) (theme : String) (size : Int) (tms : Nat → Nat) :
    ∀ (L : List Nat) (r : Rng) (t0 : Nat),
      ∀ o ∈ pairRowsFrom wid ty nameF yc props theme size tms r t0 L,
        o.type_ = ty ∧ o.world_id = wid ∧ o.y = yc := by
  intro L
  induction L with
  | nil => intro r t0 o ho; cases ho
  | cons i rest ih =>
    intro r t0 o ho
    rcases List.mem_cons.mp ho with h | h
    · subst h; exact ⟨rfl, rfl, rfl⟩
    · exact ih _ _ o h

/-- Complete behaviour of `create_world` with an explicit seed and a fresh
id: validation, the inserted row and the returned in-memory world (whose
`description` keeps the dataclass default, line 134). -/
theorem create_world_run (name theme : String) (seed size : Int) (s : PyState)
    (hth : theme ∈ THEMES)
    (hfresh : s.db.worlds.any
      (fun w => w.id == "world_" ++ toString (s.timeMsStream s.tick)) = false) :
    create_world name theme (some seed) size s =
      (.ok ⟨"world_" ++ toString (s.timeMsStream s.tick), name, theme, seed, size, [],
          Val.num (secondsOfMs (s.timeMsStream s.tick)), ""⟩,
        { s with tick := s.tick + 1, db := { s.db with worlds := s.db.worlds ++ [⟨"world_" ++ toString (s.timeMsStream s.tick), name, theme, seed, size, secondsOfMs (s.timeMsStream s.tick), "A " ++ theme ++ " metaverse world"⟩] } }) := by
  unfold create_world
  rw [if_neg (not_not_intro hth)]
  simp only [monad_bind_eq, bind_apply, M.pure, nowMs, insertWorldRow, hfresh,
    Bool.false_eq_true, if_false, monad_pure_eq]

theorem terrainStep_run (wid : String) (ij : Nat × Nat) (s : PyState) (wrow : WorldRow)
    (hfind : s.db.worlds.find? (fun w => w.id == wid) = some wrow)
    (hfresh : s.db.world_objects.any
      (fun o => o.id == objIdOfMs (s.timeMsStream s.tick)) = false) :
    terrainStep wid wrow.theme ij s =
      (.ok (), { s with rng := (rngNext s.rng).2, tick := s.tick + 1, db := { s.db with world_objects := s.db.world_objects ++ [addedRow wid "terrain" ("terrain_" ++ toString ij.1 ++ "_" ++ toString ij.2) ((ij.1 * 256 : Nat) : Rat) ((randint (-10) 50 s.rng).1 : Rat) ((ij.2 * 256 : Nat) : Rat) [("scale", Val.num 256), ("color", Val.str (get_terrain_color wrow.theme))] wrow.theme (s.timeMsStream s.tick)] } }) := by
  have hmem : "terrain" ∈ OBJECT_TYPES := by decide
  unfold terrainStep
  rw [monad_bind_eq, bind_apply]
  simp only [randintM]
  rw [monad_bind_eq, bind_apply, add_object_run, if_pos hmem]
  simp only [hfind]
  have hfresh' : (s.db.world_objects.any (fun o =>
      o.id == (addedRow wid "terrain" ("terrain_" ++ toString ij.1 ++ "_" ++ toString ij.2)
        ((ij.1 * 256 : Nat) : Rat) ((randint (-10) 50 s.rng).1 : Rat) ((ij.2 * 256 : Nat) : Rat)
        [("scale", Val.num 256), ("color", Val.str (get_terrain_color wrow.theme))] wrow.theme
        (s.timeMsStream s.tick)).id)) = false := hfresh
  rw [if_neg (by rw [hfresh']; exact Bool.false_ne_true)]
  rfl

/-- Complete behaviour of a successful terrain loop over cell list `L`:
it succeeds whenever the generated ids are mutually distinct and absent
from the table, and appends exactly `terrainRowsFrom ... L`. -/
theorem terrain_loop_run (wid : String) (L : List (Nat × Nat)) :
    ∀ (s : PyState) (wrow : WorldRow),
      s.db.worlds.find? (fun w => w.id == wid) = some wrow →
      (genIds s.timeMsStream s.tick L.length).Nodup →
      (∀ a ∈ genIds s.timeMsStream s.tick L.length,
        s.db.world_objects.any (fun o => o.id == a) = false) →
      forEachM (terrainStep wid wrow.theme) L s =
        (.ok (), { s with rng := rngSteps s.rng L.length, tick := s.tick + L.length, db := { s.db with world_objects := s.db.world_objects ++ terrainRowsFrom wid wrow.theme s.timeMsStream s.rng s.tick L } }) := by
  induction L with
  | nil =>
    intro s wrow hfind hnd hfresh
    simp [forEachM, M.pure, rngSteps_zero, terrainRowsFrom_nil]
  | cons ij rest ih =>
    intro s wrow hfind hnd hfresh
    rw [show (ij :: rest).length = rest.length + 1 from rfl, genIds_succ] at hnd hfresh
    have hndc := List.nodup_cons.mp hnd
    have hfreshhead := hfresh _ (List.mem_cons_self _ _)
    show M.bind (terrainStep wid wrow.theme ij) (fun _ => forEachM (terrainStep wid wrow.theme) rest) s = _
    rw [bind_apply, terrainStep_run wid ij s wrow hfind hfreshhead]
    set row := addedRow wid "terrain" ("terrain_" ++ toString ij.1 ++ "_" ++ toString ij.2)
      ((ij.1 * 256 : Nat) : Rat) ((randint (-10) 50 s.rng).1 : Rat) ((ij.2 * 256 : Nat) : Rat)
      [("scale", Val.num 256), ("color", Val.str (get_terrain_color wrow.theme))] wrow.theme
      (s.timeMsStream s.tick) with hrow
    set s1 : PyState := { s with rng := (rngNext s.rng).2, tick := s.tick + 1, db := { s.db with world_objects := s.db.world_objects ++ [row] } } with hs1
    have hfind1 : s1.db.worlds.find? (fun w => w.id == wid) = some wrow := hfind
    have hnd1 : (genIds s1.timeMsStream s1.tick rest.length).Nodup := hndc.2
    have hfresh1 : ∀ a ∈ genIds s1.timeMsStream s1.tick rest.length,
        s1.db.world_objects.any (fun o => o.id == a) = false := by
      intro a ha
      have h1 : s.db.world_objects.any (fun o => o.id == a) = false :=
        hfresh a (List.mem_cons_of_mem _ ha)
      have h2 : row.id ≠ a := by
        intro hcontra
        exact hndc.1 (by rw [show objIdOfMs (s.timeMsStream s.tick) = a from hcontra]; exact ha)
      have h2' : (row.id == a) = false := beq_eq_false_iff_ne.mpr h2
      show ((s.db.world_objects ++ [row]).any (fun o => o.id == a)) = false
      rw [List.any_append, h1]
      simp [h2']
    have hrest := ih s1 wrow hfind1 hnd1 hfresh1
    change forEachM (terrainStep wid wrow.theme) rest s1 = _
    rw [hrest]
    have htick : s1.tick + rest.length = s.tick + (rest.length + 1) := by
      show s.tick + 1 + rest.length = s.tick + (rest.length + 1)
      omega
    have hrng : rngSteps s1.rng rest.length = rngSteps s.rng (rest.length + 1) := by
      rw [rngSteps_succ]
    have hobjs : s1.db.world_objects ++
        terrainRowsFrom wid wrow.theme s1.timeMsStream s1.rng s1.tick rest =
        s.db.world_objects ++ terrainRowsFrom wid wrow.theme s.timeMsStream s.rng s.tick (ij :: rest) := by
      show (s.db.world_objects ++ [row]) ++
        terrainRowsFrom wid wrow.theme s.timeMsStream (rngNext s.rng).2 (s.tick + 1) rest = _
      rw [List.append_assoc, List.singleton_append]
      congr 1
    rw [htick, hrng, hobjs]
    rfl


/-- Complete behaviour of a successful `generate_terrain` call: the
generator is reseeded from the stored seed, and one terrain row per grid
cell is appended, in row-major order. -/
theorem generate_terrain_run (wid : String) (s : PyState) (wrow : WorldRow)
    (hfind : s.db.worlds.find? (fun w => w.id == wid) = some wrow)
    (hnd : (genIds s.timeMsStream s.tick (cellPairs (gridSizeOf wrow.size)).length).Nodup)
    (hfresh : ∀ a ∈ genIds s.timeMsStream s.tick (cellPairs (gridSizeOf wrow.size)).length,
      s.db.world_objects.any (fun o => o.id == a) = false) :
    generate_terrain wid s =
      (.ok (), { s with rng := rngSteps (seedRng wrow.seed) (cellPairs (gridSizeOf wrow.size)).length, tick := s.tick + (cellPairs (gridSizeOf wrow.size)).length, db := { s.db with world_objects := s.db.world_objects ++ terrainRowsFrom wid wrow.theme s.timeMsStream (seedRng wrow.seed) s.tick (cellPairs (gridSizeOf wrow.size)) } }) := by
  unfold generate_terrain
  rw [monad_bind_eq, bind_apply]
  simp only [get_world, lookupWorld, hfind]
  rw [monad_bind_eq, bind_apply]
  simp only [seedM]
  exact terrain_loop_run wid (cellPairs (gridSizeOf wrow.size)) _ wrow hfind hnd hfresh

theorem pairUniformStep_run (wid ty : String) (nameF : Nat → String) (yc : Rat)
    (props : List (String × Val)) (size : Int) (i : Nat) (s : PyState) (wrow : WorldRow)
    (hty : ty ∈ OBJECT_TYPES)
    (hfind : s.db.worlds.find? (fun w => w.id == wid) = some wrow)
    (hfresh : s.db.world_objects.any
      (fun o => o.id == objIdOfMs (s.timeMsStream s.tick)) = false) :
    pairUniformStep wid ty nameF yc props size i s =
      (.ok (), { s with rng := (rngNext (rngNext s.rng).2).2, tick := s.tick + 1, db := { s.db with world_objects := s.db.world_objects ++ [addedRow wid ty (nameF i) (py_uniform 0 (size : Rat) s.rng).1 yc (py_uniform 0 (size : Rat) (rngNext s.rng).2).1 props wrow.theme (s.timeMsStream s.tick)] } }) := by
  unfold pairUniformStep
  rw [monad_bind_eq, bind_apply]
  simp only [uniformM]
  rw [monad_bind_eq, bind_apply]
  simp only [uniformM]
  rw [monad_bind_eq, bind_apply, add_object_run, if_pos hty]
  simp only [hfind, py_uniform_rng]
  have hfresh' : (s.db.world_objects.any (fun o =>
      o.id == (addedRow wid ty (nameF i) (py_uniform 0 (size : Rat) s.rng).1 yc
        (py_uniform 0 (size : Rat) (rngNext s.rng).2).1 props wrow.theme
        (s.timeMsStream s.tick)).id)) = false := hfresh
  rw [if_neg (by rw [hfresh']; exact Bool.false_ne_true)]
  rfl

/-- Complete behaviour of a successful population loop over index list
`L`: two draws and one insert per index. -/
theorem pair_loop_run (wid ty : String) (nameF : Nat → String) (yc : Rat)
    (props : List (String × Val)) (size : Int) (hty : ty ∈ OBJECT_TYPES) (L : List Nat) :
    ∀ (s : PyState) (wrow : WorldRow),
      s.db.worlds.find? (fun w => w.id == wid) = some wrow →
      (genIds s.timeMsStream s.tick L.length).Nodup →
      (∀ a ∈ genIds s.timeMsStream s.tick L.length,
        s.db.world_objects.any (fun o => o.id == a) = false) →
      forEachM (pairUniformStep wid ty nameF yc props size) L s =
        (.ok (), { s with rng := rngSteps s.rng (2 * L.length), tick := s.tick + L.length, db := { s.db with world_objects := s.db.world_objects ++ pairRowsFrom wid ty nameF yc props wrow.theme size s.timeMsStream s.rng s.tick L } }) := by
  induction L with
  | nil =>
    intro s wrow hfind hnd hfresh
    simp [forEachM, M.pure, rngSteps_zero, pairRowsFrom_nil]
  | cons i rest ih =>
    intro s wrow hfind hnd hfresh
    rw [show (i :: rest).length = rest.length + 1 from rfl, genIds_succ] at hnd hfresh
    have hndc := List.nodup_cons.mp hnd
    have hfreshhead := hfresh _ (List.mem_cons_self _ _)
    show M.bind (pairUniformStep wid ty nameF yc props size i)
      (fun _ => forEachM (pairUniformStep wid ty nameF yc props size) rest) s = _
    rw [bind_apply, pairUniformStep_run wid ty nameF yc props size i s wrow hty hfind hfreshhead]
    set row := addedRow wid ty (nameF i) (py_uniform 0 (size : Rat) s.rng).1 yc
      (py_uniform 0 (size : Rat) (rngNext s.rng).2).1 props wrow.theme
      (s.timeMsStream s.tick) with hrow
    set s1 : PyState := { s with rng := (rngNext (rngNext s.rng).2).2, tick := s.tick + 1, db := { s.db with world_objects := s.db.world_objects ++ [row] } } with hs1
    have hfind1 : s1.db.worlds.find? (fun w => w.id == wid) = some wrow := hfind
    have hnd1 : (genIds s1.timeMsStream s1.tick rest.length).Nodup := hndc.2
    have hfresh1 : ∀ a ∈ genIds s1.timeMsStream s1.tick rest.length,
        s1.db.world_objects.any (fun o => o.id == a) = false := by
      intro a ha
      have h1 : s.db.world_objects.any (fun o => o.id == a) = false :=
        hfresh a (List.mem_cons_of_mem _ ha)
      have h2 : row.id ≠ a := by
        intro hcontra
        exact hndc.1 (by rw [show objIdOfMs (s.timeMsStream s.tick) = a from hcontra]; exact ha)
      have h2' : (row.id == a) = false := beq_eq_false_iff_ne.mpr h2
      show ((s.db.world_objects ++ [row]).any (fun o => o.id == a)) = false
      rw [List.any_append, h1]
      simp [h2']
    have hrest := ih s1 wrow hfind1 hnd1 hfresh1
    change forEachM (pairUniformStep wid ty nameF yc props size) rest s1 = _
    rw [hrest]
    have htick : s1.tick + rest.length = s.tick + (rest.length + 1) := by
      show s.tick + 1 + rest.length = s.tick + (rest.length + 1)
      omega
    have hrng : rngSteps s1.rng (2 * rest.length) = rngSteps s.rng (2 * (rest.length + 1)) := by
      have e1 : s1.rng = rngSteps s.rng 2 := by
        show (rngNext (rngNext s.rng).2).2 = _
        rw [rngSteps_succ, rngSteps_succ, rngSteps_zero]
      rw [e1, rngSteps_add]
      congr 1
    have hobjs : s1.db.world_objects ++
        pairRowsFrom wid ty nameF yc props wrow.theme size s1.timeMsStream s1.rng s1.tick rest =
        s.db.world_objects ++
        pairRowsFrom wid ty nameF yc props wrow.theme size s.timeMsStream s.rng s.tick (i :: rest) := by
      show (s.db.world_objects ++ [row]) ++ pairRowsFrom wid ty nameF yc props wrow.theme size
        s.timeMsStream (rngNext (rngNext s.rng).2).2 (s.tick + 1) rest = _
      rw [List.append_assoc, List.singleton_append]
      congr 1
    rw [htick, hrng, hobjs]
    rfl

theorem buildingStep_eq (wid theme : String) (size : Int) :
    buildingStep wid theme size =
      pairUniformStep wid "building" (fun i => theme ++ "_building_" ++ toString i) 20
        [("scale", Val.num 20)] size := rfl

theorem treeStep_eq (wid : String) (size : Int) :
    treeStep wid size =
      pairUniformStep wid "tree" (fun i => "tree_" ++ toString i) 5
        [("scale", Val.num 5)] size := rfl

theorem lightStep_eq (wid : String) (size : Int) :
    lightStep wid size =
      pairUniformStep wid "light" (fun i => "light_" ++ toString i) 100
        [("scale", Val.num 2), ("color", Val.str "#FFFF00")] size := rfl







theorem bind_ok (x : M α) (f : α → M β) (s s' : PyState) (a : α)
    (h : x s = (.ok a, s')) : M.bind x f s = f a s' := by
  unfold M.bind
  rw [h]

theorem genIds_one (tms : Nat → Nat) (t0 : Nat) :
    genIds tms t0 1 = [objIdOfMs (tms t0)] := by
  rw [genIds_succ, genIds_zero]

theorem specialStep_run (wid : String) (s : PyState) (wrow : WorldRow)
    (hfind : s.db.worlds.find? (fun w => w.id == wid) = some wrow)
    (hfresh : ∀ a ∈ genIds s.timeMsStream s.tick (specialCount wrow.theme),
      s.db.world_objects.any (fun o => o.id == a) = false) :
    specialStep wid wrow.theme s =
      (.ok (), { s with tick := s.tick + specialCount wrow.theme, db := { s.db with world_objects := s.db.world_objects ++ specialRowsFor wid wrow.theme s.timeMsStream s.tick } }) := by
  unfold specialStep
  cases h1 : wrow.theme == "cyberpunk" with
  | true =>
    have hsc : specialCount wrow.theme = 1 := by simp [specialCount, h1]
    rw [hsc] at hfresh
    have hfreshhead := hfresh _ (by rw [genIds_one]; exact List.mem_singleton.mpr rfl)
    simp only [h1, if_true]
    rw [monad_bind_eq, bind_apply, add_object_run, if_pos (by decide : "npc" ∈ OBJECT_TYPES)]
    simp only [hfind]
    have hfresh' : (s.db.world_objects.any (fun o =>
        o.id == (addedRow wid "npc" "neon_runner" 500 50 500
          [("scale", Val.num 2), ("color", Val.str "#FF00FF")] wrow.theme
          (s.timeMsStream s.tick)).id)) = false := hfreshhead
    rw [if_neg (by rw [hfresh']; exact Bool.false_ne_true)]
    simp only [specialRowsFor, h1, if_true, hsc]
    rfl
  | false =>
    cases h2 : wrow.theme == "fantasy" with
    | true =>
      have hsc : specialCount wrow.theme = 1 := by simp [specialCount, h1, h2]
      rw [hsc] at hfresh
      have hfreshhead := hfresh _ (by rw [genIds_one]; exact List.mem_singleton.mpr rfl)
      simp only [h1, h2, if_true, Bool.false_eq_true, if_false]
      rw [monad_bind_eq, bind_apply, add_object_run,
        if_pos (by decide : "artifact" ∈ OBJECT_TYPES)]
      simp only [hfind]
      have hfresh' : (s.db.world_objects.any (fun o =>
          o.id == (addedRow wid "artifact" "ancient_stone" 512 20 512
            [("scale", Val.num 10), ("color", Val.str "#808080")] wrow.theme
            (s.timeMsStream s.tick)).id)) = false := hfreshhead
      rw [if_neg (by rw [hfresh']; exact Bool.false_ne_true)]
      simp only [specialRowsFor, h1, h2, if_true, Bool.false_eq_true, if_false, hsc]
      rfl
    | false =>
      cases h3 : wrow.theme == "space" with
      | true =>
        have hsc : specialCount wrow.theme = 1 := by simp [specialCount, h1, h2, h3]
        rw [hsc] at hfresh
        have hfreshhead := hfresh _ (by rw [genIds_one]; exact List.mem_singleton.mpr rfl)
        simp only [h1, h2, h3, if_true, Bool.false_eq_true, if_false]
        rw [monad_bind_eq, bind_apply, add_object_run,
          if_pos (by decide : "portal" ∈ OBJECT_TYPES)]
        simp only [hfind]
        have hfresh' : (s.db.world_objects.any (fun o =>
            o.id == (addedRow wid "portal" "stargate" 512 100 512
              [("scale", Val.num 50), ("color", Val.str "#00FFFF")] wrow.theme
              (s.timeMsStream s.tick)).id)) = false := hfreshhead
        rw [if_neg (by rw [hfresh']; exact Bool.false_ne_true)]
        simp only [specialRowsFor, h1, h2, h3, if_true, Bool.false_eq_true, if_false, hsc]
        rfl
      | false =>
        have hsc : specialCount wrow.theme = 0 := by simp [specialCount, h1, h2, h3]
        simp only [h1, h2, h3, Bool.false_eq_true, if_false, M.pure, specialRowsFor, hsc]
        simp

theorem fresh_extend (E new : List ObjectRow) (ids prevIds : List String)
    (hids : new.map (fun o => o.id) = prevIds)
    (hfreshE : ∀ a ∈ ids, E.any (fun o => o.id == a) = false)
    (hdisj : ∀ a ∈ ids, a ∉ prevIds) :
    ∀ a ∈ ids, (E ++ new).any (fun o => o.id == a) = false := by
  intro a ha
  rw [List.any_append, hfreshE a ha]
  have h2 : new.any (fun o => o.id == a) = false := by
    rw [List.any_eq_false]
    intro o ho hbeq
    have hoid : o.id ∈ prevIds := hids ▸ List.mem_map_of_mem _ ho
    have : o.id = a := eq_of_beq hbeq
    exact hdisj a ha (this ▸ hoid)
  rw [h2]
  rfl

/-- Complete behaviour of a successful `populate_world` call: reseed, 8
buildings, 15 trees (skipped for space/underwater), 4 lights, and the
theme's special object. -/
theorem populate_world_run (wid : String) (s : PyState) (wrow : WorldRow)
    (hfind : s.db.worlds.find? (fun w => w.id == wid) = some wrow)
    (hnd : (genIds s.timeMsStream s.tick (popCount wrow.theme)).Nodup)
    (hfresh : ∀ a ∈ genIds s.timeMsStream s.tick (popCount wrow.theme),
      s.db.world_objects.any (fun o => o.id == a) = false) :
    populate_world wid s =
      (.ok (), { s with rng := rngSteps (seedRng wrow.seed) (popDraws wrow.theme), tick := s.tick + popCount wrow.theme, db := { s.db with world_objects := s.db.world_objects ++ popRows wid wrow.theme wrow.size s.timeMsStream (seedRng wrow.seed) s.tick } }) := by
  have hsplit : popCount wrow.theme =
      8 + (treeCount wrow.theme + (4 + specialCount wrow.theme)) := by
    unfold popCount
    omega
  rw [hsplit, genIds_append, genIds_append, genIds_append] at hnd hfresh
  have hp1 := List.nodup_append.mp hnd
  have hp2 := List.nodup_append.mp hp1.2.1
  have hp3 := List.nodup_append.mp hp2.2.1
  have hfreshA : ∀ a ∈ genIds s.timeMsStream s.tick 8,
      s.db.world_objects.any (fun o => o.id == a) = false :=
    fun a ha => hfresh a (List.mem_append_left _ ha)
  have hfreshB0 : ∀ a ∈ genIds s.timeMsStream (s.tick + 8) (treeCount wrow.theme),
      s.db.world_objects.any (fun o => o.id == a) = false :=
    fun a ha => hfresh a (List.mem_append_right _ (List.mem_append_left _ ha))
  have hfreshC0 : ∀ a ∈ genIds s.timeMsStream (s.tick + 8 + treeCount wrow.theme) 4,
      s.db.world_objects.any (fun o => o.id == a) = false :=
    fun a ha => hfresh a
      (List.mem_append_right _ (List.mem_append_right _ (List.mem_append_left _ ha)))
  have hfreshD0 : ∀ a ∈ genIds s.timeMsStream
      (s.tick + 8 + treeCount wrow.theme + 4) (specialCount wrow.theme),
      s.db.world_objects.any (fun o => o.id == a) = false :=
    fun a ha => hfresh a
      (List.mem_append_right _ (List.mem_append_right _ (List.mem_append_right _ ha)))
  unfold populate_world
  rw [monad_bind_eq, bind_apply]
  simp only [get_world, lookupWorld, hfind]
  rw [monad_bind_eq, bind_apply]
  simp only [seedM]
  set bRows : List ObjectRow := pairRowsFrom wid "building"
    (fun i => wrow.theme ++ "_building_" ++ toString i) 20 [("scale", Val.num 20)]
    wrow.theme wrow.size s.timeMsStream (seedRng wrow.seed) s.tick (List.range 8) with hbR
  have hB : forEachM (buildingStep wid wrow.theme wrow.size) (List.range 8)
      { db := s.db, rng := seedRng wrow.seed, timeMsStream := s.timeMsStream, tick := s.tick } =
      (.ok (), { db := { worlds := s.db.worlds, world_objects := s.db.world_objects ++ bRows, player_positions := s.db.player_positions }, rng := rngSteps (seedRng wrow.seed) 16, timeMsStream := s.timeMsStream, tick := s.tick + 8 }) :=
    pair_loop_run wid "building" (fun i => wrow.theme ++ "_building_" ++ toString i) 20
      [("scale", Val.num 20)] wrow.size (by decide) (List.range 8)
      { db := s.db, rng := seedRng wrow.seed, timeMsStream := s.timeMsStream, tick := s.tick }
      wrow hfind hp1.1 hfreshA
  have hidsB : bRows.map (fun o => o.id) = genIds s.timeMsStream s.tick 8 :=
    pairRowsFrom_ids wid "building" (fun i => wrow.theme ++ "_building_" ++ toString i) 20
      [("scale", Val.num 20)] wrow.theme wrow.size s.timeMsStream (List.range 8)
      (seedRng wrow.seed) s.tick
  by_cases htree : wrow.theme ∈ (["space", "underwater"] : List String)
  · -- space/underwater: the tree loop is skipped entirely
    have htc : treeCount wrow.theme = 0 := by simp [treeCount, htree]
    simp only [htc, Nat.add_zero, genIds_zero, List.nil_append] at hp1 hp3 hfreshC0 hfreshD0
    set lRows : List ObjectRow := pairRowsFrom wid "light" (fun i => "light_" ++ toString i)
      100 [("scale", Val.num 2), ("color", Val.str "#FFFF00")] wrow.theme wrow.size
      s.timeMsStream (rngSteps (seedRng wrow.seed) 16) (s.tick + 8) (List.range 4) with hlR
    have hfreshC1 : ∀ a ∈ genIds s.timeMsStream (s.tick + 8) 4,
        ((s.db.world_objects ++ bRows).any (fun o => o.id == a)) = false :=
      fresh_extend s.db.world_objects bRows _ (genIds s.timeMsStream s.tick 8) hidsB hfreshC0
        (fun a ha haA => hp1.2.2 haA (List.mem_append_left _ ha))
    have hL : forEachM (lightStep wid wrow.size) (List.range 4)
        { db := { worlds := s.db.worlds, world_objects := s.db.world_objects ++ bRows, player_positions := s.db.player_positions }, rng := rngSteps (seedRng wrow.seed) 16, timeMsStream := s.timeMsStream, tick := s.tick + 8 } =
        (.ok (), { db := { worlds := s.db.worlds, world_objects := (s.db.world_objects ++ bRows) ++ lRows, player_positions := s.db.player_positions }, rng := rngSteps (rngSteps (seedRng wrow.seed) 16) 8, timeMsStream := s.timeMsStream, tick := (s.tick + 8) + 4 }) :=
      pair_loop_run wid "light" (fun i => "light_" ++ toString i) 100
        [("scale", Val.num 2), ("color", Val.str "#FFFF00")] wrow.size (by decide) (List.range 4)
        { db := { worlds := s.db.worlds, world_objects := s.db.world_objects ++ bRows, player_positions := s.db.player_positions }, rng := rngSteps (seedRng wrow.seed) 16, timeMsStream := s.timeMsStream, tick := s.tick + 8 }
        wrow hfind hp3.1 hfreshC1
    have hidsL : lRows.map (fun o => o.id) = genIds s.timeMsStream (s.tick + 8) 4 :=
      pairRowsFrom_ids wid "light" (fun i => "light_" ++ toString i) 100
        [("scale", Val.num 2), ("color", Val.str "#FFFF00")] wrow.theme wrow.size
        s.timeMsStream (List.range 4) (rngSteps (seedRng wrow.seed) 16) (s.tick + 8)
    have hfreshD1 : ∀ a ∈ genIds s.timeMsStream (s.tick + 8 + 4) (specialCount wrow.theme),
        ((s.db.world_objects ++ bRows).any (fun o => o.id == a)) = false :=
      fresh_extend s.db.world_objects bRows _ (genIds s.timeMsStream s.tick 8) hidsB hfreshD0
        (fun a ha haA => hp1.2.2 haA (List.mem_append_right _ ha))
    have hfreshD2 : ∀ a ∈ genIds s.timeMsStream (s.tick + 8 + 4) (specialCount wrow.theme),
        (((s.db.world_objects ++ bRows) ++ lRows).any (fun o => o.id == a)) = false :=
      fresh_extend (s.db.world_objects ++ bRows) lRows _ (genIds s.timeMsStream (s.tick + 8) 4)
        hidsL hfreshD1 (fun a ha haC => hp3.2.2 haC ha)
    have hSp : specialStep wid wrow.theme
        { db := { worlds := s.db.worlds, world_objects := (s.db.world_objects ++ bRows) ++ lRows, player_positions := s.db.player_positions }, rng := rngSteps (rngSteps (seedRng wrow.seed) 16) 8, timeMsStream := s.timeMsStream, tick := (s.tick + 8) + 4 } =
        (.ok (), { db := { worlds := s.db.worlds, world_objects := ((s.db.world_objects ++ bRows) ++ lRows) ++ specialRowsFor wid wrow.theme s.timeMsStream ((s.tick + 8) + 4), player_positions := s.db.player_positions }, rng := rngSteps (rngSteps (seedRng wrow.seed) 16) 8, timeMsStream := s.timeMsStream, tick := ((s.tick + 8) + 4) + specialCount wrow.theme }) :=
      specialStep_run wid
        { db := { worlds := s.db.worlds, world_objects := (s.db.world_objects ++ bRows) ++ lRows, player_positions := s.db.player_positions }, rng := rngSteps (rngSteps (seedRng wrow.seed) 16) 8, timeMsStream := s.timeMsStream, tick := (s.tick + 8) + 4 }
        wrow hfind hfreshD2
    rw [if_neg (not_not_intro htree)]
    rw [monad_bind_eq, bind_ok _ _ _ _ _ hB]
    rw [monad_bind_eq]
    rw [bind_ok _ _ _ _ _ (rfl :
      M.pure () { db := { worlds := s.db.worlds, world_objects := s.db.world_objects ++ bRows, player_positions := s.db.player_positions }, rng := rngSteps (seedRng wrow.seed) 16, timeMsStream := s.timeMsStream, tick := s.tick + 8 } =
      ((.ok ()), { db := { worlds := s.db.worlds, world_objects := s.db.world_objects ++ bRows, player_positions := s.db.player_positions }, rng := rngSteps (seedRng wrow.seed) 16, timeMsStream := s.timeMsStream, tick := s.tick + 8 }))]
    rw [monad_bind_eq, bind_ok _ _ _ _ _ hL]
    rw [hSp]
    simp only [popRows, popDraws, popCount, htc, htree, rngSteps_add, rngSteps_zero,
      Nat.add_zero, List.append_assoc, List.append_nil, hbR, hlR]
    simp [Prod.mk.injEq, PyState.mk.injEq, DB.mk.injEq, htree]
    omega
  · -- themes with trees
    have htc : treeCount wrow.theme = 15 := by simp [treeCount, htree]
    simp only [htc] at hp1 hp2 hp3 hfreshB0 hfreshC0 hfreshD0
    set tRows : List ObjectRow := pairRowsFrom wid "tree" (fun i => "tree_" ++ toString i) 5
      [("scale", Val.num 5)] wrow.theme wrow.size s.timeMsStream
      (rngSteps (seedRng wrow.seed) 16) (s.tick + 8) (List.range 15) with htR
    set lRows : List ObjectRow := pairRowsFrom wid "light" (fun i => "light_" ++ toString i)
      100 [("scale", Val.num 2), ("color", Val.str "#FFFF00")] wrow.theme wrow.size
      s.timeMsStream (rngSteps (rngSteps (seedRng wrow.seed) 16) 30) (s.tick + 8 + 15)
      (List.range 4) with hlR
    have hfreshB1 : ∀ a ∈ genIds s.timeMsStream (s.tick + 8) 15,
        ((s.db.world_objects ++ bRows).any (fun o => o.id == a)) = false :=
      fresh_extend s.db.world_objects bRows _ (genIds s.timeMsStream s.tick 8) hidsB hfreshB0
        (fun a ha haA => hp1.2.2 haA (List.mem_append_left _ ha))
    have hT : forEachM (treeStep wid wrow.size) (List.range 15)
        { db := { worlds := s.db.worlds, world_objects := s.db.world_objects ++ bRows, player_positions := s.db.player_positions }, rng := rngSteps (seedRng wrow.seed) 16, timeMsStream := s.timeMsStream, tick := s.tick + 8 } =
        (.ok (), { db := { worlds := s.db.worlds, world_objects := (s.db.world_objects ++ bRows) ++ tRows, player_positions := s.db.player_positions }, rng := rngSteps (rngSteps (seedRng wrow.seed) 16) 30, timeMsStream := s.timeMsStream, tick := (s.tick + 8) + 15 }) :=
      pair_loop_run wid "tree" (fun i => "tree_" ++ toString i) 5 [("scale", Val.num 5)]
        wrow.size (by decide) (List.range 15)
        { db := { worlds := s.db.worlds, world_objects := s.db.world_objects ++ bRows, player_positions := s.db.player_positions }, rng := rngSteps (seedRng wrow.seed) 16, timeMsStream := s.timeMsStream, tick := s.tick + 8 }
        wrow hfind hp2.1 hfreshB1
    have hidsT : tRows.map (fun o => o.id) = genIds s.timeMsStream (s.tick + 8) 15 :=
      pairRowsFrom_ids wid "tree" (fun i => "tree_" ++ toString i) 5 [("scale", Val.num 5)]
        wrow.theme wrow.size s.timeMsStream (List.range 15)
        (rngSteps (seedRng wrow.seed) 16) (s.tick + 8)
    have hfreshC1 : ∀ a ∈ genIds s.timeMsStream (s.tick + 8 + 15) 4,
        ((s.db.world_objects ++ bRows).any (fun o => o.id == a)) = false :=
      fresh_extend s.db.world_objects bRows _ (genIds s.timeMsStream s.tick 8) hidsB hfreshC0
        (fun a ha haA => hp1.2.2 haA (List.mem_append_right _ (List.mem_append_left _ ha)))
    have hfreshC2 : ∀ a ∈ genIds s.timeMsStream (s.tick + 8 + 15) 4,
        (((s.db.world_objects ++ bRows) ++ tRows).any (fun o => o.id == a)) = false :=
      fresh_extend (s.db.world_objects ++ bRows) tRows _ (genIds s.timeMsStream (s.tick + 8) 15)
        hidsT hfreshC1 (fun a ha haB => hp2.2.2 haB (List.mem_append_left _ ha))
    have hL : forEachM (lightStep wid wrow.size) (List.range 4)
        { db := { worlds := s.db.worlds, world_objects := (s.db.world_objects ++ bRows) ++ tRows, player_positions := s.db.player_positions }, rng := rngSteps (rngSteps (seedRng wrow.seed) 16) 30, timeMsStream := s.timeMsStream, tick := (s.tick + 8) + 15 } =
        (.ok (), { db := { worlds := s.db.worlds, world_objects := ((s.db.world_objects ++ bRows) ++ tRows) ++ lRows, player_positions := s.db.player_positions }, rng := rngSteps (rngSteps (rngSteps (seedRng wrow.seed) 16) 30) 8, timeMsStream := s.timeMsStream, tick := ((s.tick + 8) + 15) + 4 }) :=
      pair_loop_run wid "light" (fun i => "light_" ++ toString i) 100
        [("scale", Val.num 2), ("color", Val.str "#FFFF00")] wrow.size (by decide) (List.range 4)
        { db := { worlds := s.db.worlds, world_objects := (s.db.world_objects ++ bRows) ++ tRows, player_positions := s.db.player_positions }, rng := rngSteps (rngSteps (seedRng wrow.seed) 16) 30, timeMsStream := s.timeMsStream, tick := (s.tick + 8) + 15 }
        wrow hfind hp3.1 hfreshC2
    have hidsL : lRows.map (fun o => o.id) = genIds s.timeMsStream (s.tick + 8 + 15) 4 :=
      pairRowsFrom_ids wid "light" (fun i => "light_" ++ toString i) 100
        [("scale", Val.num 2), ("color", Val.str "#FFFF00")] wrow.theme wrow.size
        s.timeMsStream (List.range 4) (rngSteps (rngSteps (seedRng wrow.seed) 16) 30)
        (s.tick + 8 + 15)
    have hfreshD1 : ∀ a ∈ genIds s.timeMsStream (s.tick + 8 + 15 + 4) (specialCount wrow.theme),
        ((s.db.world_objects ++ bRows).any (fun o => o.id == a)) = false :=
      fresh_extend s.db.world_objects bRows _ (genIds s.timeMsStream s.tick 8) hidsB hfreshD0
        (fun a ha haA => hp1.2.2 haA (List.mem_append_right _ (List.mem_append_right _ ha)))
    have hfreshD2 : ∀ a ∈ genIds s.timeMsStream (s.tick + 8 + 15 + 4) (specialCount wrow.theme),
        (((s.db.world_objects ++ bRows) ++ tRows).any (fun o => o.id == a)) = false :=
      fresh_extend (s.db.world_objects ++ bRows) tRows _ (genIds s.timeMsStream (s.tick + 8) 15)
        hidsT hfreshD1 (fun a ha haB => hp2.2.2 haB (List.mem_append_right _ ha))
    have hfreshD3 : ∀ a ∈ genIds s.timeMsStream (s.tick + 8 + 15 + 4) (specialCount wrow.theme),
        ((((s.db.world_objects ++ bRows) ++ tRows) ++ lRows).any (fun o => o.id == a)) = false :=
      fresh_extend ((s.db.world_objects ++ bRows) ++ tRows) lRows _
        (genIds s.timeMsStream (s.tick + 8 + 15) 4) hidsL hfreshD2
        (fun a ha haC => hp3.2.2 haC ha)
    have hSp : specialStep wid wrow.theme
        { db := { worlds := s.db.worlds, world_objects := ((s.db.world_objects ++ bRows) ++ tRows) ++ lRows, player_positions := s.db.player_positions }, rng := rngSteps (rngSteps (rngSteps (seedRng wrow.seed) 16) 30) 8, timeMsStream := s.timeMsStream, tick := ((s.tick + 8) + 15) + 4 } =
        (.ok (), { db := { worlds := s.db.worlds, world_objects := (((s.db.world_objects ++ bRows) ++ tRows) ++ lRows) ++ specialRowsFor wid wrow.theme s.timeMsStream (((s.tick + 8) + 15) + 4), player_positions := s.db.player_positions }, rng := rngSteps (rngSteps (rngSteps (seedRng wrow.seed) 16) 30) 8, timeMsStream := s.timeMsStream, tick := (((s.tick + 8) + 15) + 4) + specialCount wrow.theme }) :=
      specialStep_run wid
        { db := { worlds := s.db.worlds, world_objects := ((s.db.world_objects ++ bRows) ++ tRows) ++ lRows, player_positions := s.db.player_positions }, rng := rngSteps (rngSteps (rngSteps (seedRng wrow.seed) 16) 30) 8, timeMsStream := s.timeMsStream, tick := ((s.tick + 8) + 15) + 4 }
        wrow hfind hfreshD3
    rw [if_pos htree]
    rw [monad_bind_eq, bind_ok _ _ _ _ _ hB]
    rw [monad_bind_eq, bind_ok _ _ _ _ _ hT]
    rw [monad_bind_eq, bind_ok _ _ _ _ _ hL]
    rw [hSp]
    simp only [popRows, popDraws, popCount, htc, htree, rngSteps_add, rngSteps_zero,
      List.append_assoc, hbR, htR, hlR]
    simp [Prod.mk.injEq, PyState.mk.injEq, DB.mk.injEq, htree]
    omega

/-- The `randint` model really lands in `[lo, hi]`. -/
theorem randint_range (lo hi : Int) (r : Rng) (h : lo ≤ hi) :
    lo ≤ (randint lo hi r).1 ∧ (randint lo hi r).1 ≤ hi := by
  have hm : (0 : Int) < hi - lo + 1 := by omega
  have h1 : 0 ≤ ((rngNext r).1 : Int) % (hi - lo + 1) :=
    Int.emod_nonneg _ (by omega)
  have h2 : ((rngNext r).1 : Int) % (hi - lo + 1) < hi - lo + 1 :=
    Int.emod_lt_of_pos _ hm
  unfold randint
  dsimp only
  constructor <;> omega

theorem cellPairs_length (g : Nat) : (cellPairs g).length = g * g := by
  unfold cellPairs
  rw [List.length_flatMap]
  have h : (List.range g).map (List.length ∘ fun i => (List.range g).map (fun j => (i, j))) =
      List.replicate g g := by
    rw [List.eq_replicate_iff]
    refine ⟨by rw [List.length_map, List.length_range], ?_⟩
    intro b hb
    rcases List.mem_map.mp hb with ⟨i, _, hi⟩
    rw [← hi]
    simp
  rw [h, List.sum_replicate, smul_eq_mul]

theorem flat_block_getElem (g : Nat) :
    ∀ (is : List Nat) (k : Nat), k < is.length * g →
      ((is.flatMap (fun i => (List.range g).map (fun j => (i, j))))[k]?) =
        (is[k / g]?).map (fun i => (i, k % g)) := by
  intro is
  induction is with
  | nil => intro k hk; simp at hk
  | cons i rest ih =>
    intro k hk
    have hg : 0 < g := by
      rcases Nat.eq_zero_or_pos g with h0 | h0
      · rw [h0] at hk; omega
      · exact h0
    rw [List.flatMap_cons]
    by_cases hkg : k < g
    · rw [List.getElem?_append,
        if_pos (by rw [List.length_map, List.length_range]; exact hkg)]
      rw [Nat.div_eq_of_lt hkg, Nat.mod_eq_of_lt hkg]
      simp [List.getElem?_map, List.getElem?_range hkg]
    · have hle : g ≤ k := Nat.le_of_not_lt hkg
      obtain ⟨m, rfl⟩ := Nat.exists_eq_add_of_le hle
      rw [List.getElem?_append,
        if_neg (by rw [List.length_map, List.length_range]; omega)]
      rw [List.length_map, List.length_range]
      have hm : m < rest.length * g := by
        have h5 := hk
        rw [List.length_cons, Nat.add_mul, one_mul] at h5
        omega
      have e1 : g + m - g = m := by omega
      rw [e1, ih m hm]
      have e2 : (g + m) / g = m / g + 1 := by
        rw [Nat.add_comm g m, Nat.add_div_right _ hg]
      have e3 : (g + m) % g = m % g := by
        rw [Nat.add_comm g m, Nat.add_mod_right]
      rw [e2, e3, List.getElem?_cons_succ]

theorem cellPairs_getElem (g i j : Nat) (hi : i < g) (hj : j < g) :
    (cellPairs g)[i * g + j]? = some (i, j) := by
  have hk : i * g + j < (List.range g).length * g := by
    rw [List.length_range]
    calc i * g + j < i * g + g := by omega
    _ = (i + 1) * g := by ring
    _ ≤ g * g := Nat.mul_le_mul_right g (by omega)
  unfold cellPairs
  rw [flat_block_getElem g (List.range g) _ hk]
  have e1 : (i * g + j) / g = i := by
    rw [Nat.add_comm, Nat.add_mul_div_right _ _ (by omega : 0 < g), Nat.div_eq_of_lt hj]
    omega
  have e2 : (i * g + j) % g = j := by
    rw [Nat.add_comm, Nat.add_mul_mod_self_right, Nat.mod_eq_of_lt hj]
  rw [e1, e2, List.getElem?_range hi]
  rfl


theorem terrainRowsFrom_getElem (wid theme : String) (tms : Nat → Nat) :
    ∀ (L : List (Nat × Nat)) (r : Rng) (t0 k : Nat) (ij : Nat × Nat),
      L[k]? = some ij →
      (terrainRowsFrom wid theme tms r t0 L)[k]? =
        some (addedRow wid "terrain" ("terrain_" ++ toString ij.1 ++ "_" ++ toString ij.2)
          ((ij.1 * 256 : Nat) : Rat) ((heightAt r k : Int) : Rat) ((ij.2 * 256 : Nat) : Rat)
          [("scale", Val.num 256), ("color", Val.str (get_terrain_color theme))] theme
          (tms (t0 + k))) := by
  intro L
  induction L with
  | nil => intro r t0 k ij h; simp at h
  | cons hd rest ih =>
    intro r t0 k ij h
    cases k with
    | zero =>
      rw [List.getElem?_cons_zero] at h
      cases h
      simp only [terrainRowsFrom, List.getElem?_cons_zero, heightAt, rngSteps_zero,
        Nat.add_zero]
    | succ k' =>
      rw [List.getElem?_cons_succ] at h
      simp only [terrainRowsFrom, List.getElem?_cons_succ]
      rw [ih _ (t0 + 1) k' ij h]
      have e1 : heightAt (randint (-10) 50 r).2 k' = heightAt r (k' + 1) := by
        unfold heightAt
        rw [randint_rng, ← rngSteps_succ]
      have e2 : t0 + 1 + k' = t0 + (k' + 1) := by omega
      rw [e1, e2]

/-- The `(x, y, z, color)` projection of the terrain rows depends only on
the theme, the generator state and the cell list — not on the world id,
the clock stream or the clock position.  This is the heart of the
determinism claim. -/
theorem terrainRowsFrom_proj (wid wid' theme : String) (tms tms' : Nat → Nat) :
    ∀ (L : List (Nat × Nat)) (r : Rng) (t0 t0' : Nat),
      (terrainRowsFrom wid theme tms r t0 L).map (fun o => (o.x, o.y, o.z, o.color)) =
        (terrainRowsFrom wid' theme tms' r t0' L).map (fun o => (o.x, o.y, o.z, o.color)) := by
  intro L
  induction L with
  | nil => intro r t0 t0'; rfl
  | cons hd rest ih =>
    intro r t0 t0'
    simp only [terrainRowsFrom, List.map_cons]
    rw [ih]
    rfl

/-- Complete behaviour of `teleport`: always succeeds; the second branch
of the caught `IntegrityError` updates every row of the composite key. -/
theorem teleport_run (wid pid : String) (x y z : Rat) (s : PyState) :
    teleport wid pid x y z s =
      (.ok (), { s with tick := s.tick + 1, db := { s.db with player_positions := if s.db.player_positions.any (fun r => r.player_id == pid && r.world_id == wid) then s.db.player_positions.map (fun r => if r.player_id == pid && r.world_id == wid then { r with x := x, y := y, z := z, teleported_at := secondsOfMs (s.timeMsStream s.tick) } else r) else s.db.player_positions ++ [⟨pid, wid, x, y, z, secondsOfMs (s.timeMsStream s.tick)⟩] } }) := by
  unfold teleport
  rw [monad_bind_eq, bind_apply]
  simp only [nowMs]
  cases hcond : s.db.player_positions.any
      (fun r => r.player_id == pid && r.world_id == wid) <;>
    simp [hcond]

/-- `export_json` raises `TypeError` for every stored world: `get_world`
binds the description column to `created_at`, and
`datetime.fromtimestamp` rejects the string. -/
theorem export_json_typeError (wid : String) (s : PyState) (wrow : WorldRow)
    (hfind : s.db.worlds.find? (fun w => w.id == wid) = some wrow) :
    export_json wid s = (.error .typeError, s) := by
  unfold export_json
  rw [monad_bind_eq, bind_apply]
  simp only [get_world, lookupWorld, hfind]
  rfl

/-- Complete behaviour of `export_gltf_stub` on an existing world, keyed
to the stored rows of the world. -/
theorem export_gltf_run (wid : String) (s : PyState) (wrow : WorldRow)
    (hfind : s.db.worlds.find? (fun w => w.id == wid) = some wrow) :
    export_gltf_stub wid s =
      (.ok { asset_version := "2.0", asset_generator := "MetaverseBuilder", scene := 0, scenes := [⟨wrow.name, List.range ((s.db.world_objects.filter (fun o => o.world_id == wid)).map objOfRow).length⟩], nodes := ((s.db.world_objects.filter (fun o => o.world_id == wid)).map objOfRow).map nodeOf, meshes := ((s.db.world_objects.filter (fun o => o.world_id == wid)).map objOfRow).map (fun _ => meshStub) }, s) := by
  unfold export_gltf_stub
  rw [monad_bind_eq, bind_apply]
  simp only [get_world, lookupWorld, hfind]
  rfl

theorem terrainRowsFrom_mem (wid theme : String) (tms : Nat → Nat) :
    ∀ (L : List (Nat × Nat)) (r : Rng) (t0 : Nat),
      ∀ o ∈ terrainRowsFrom wid theme tms r t0 L,
        o.type_ = "terrain" ∧ o.world_id = wid := by
  intro L
  induction L with
  | nil => intro r t0 o ho; cases ho
  | cons ij rest ih =>
    intro r t0 o ho
    rcases List.mem_cons.mp ho with h | h
    · subst h; exact ⟨rfl, rfl⟩
    · exact ih _ _ o h

theorem gridSizeOf_toNat (size : Int) (h : 0 ≤ size) :
    gridSizeOf size = size.toNat / 256 := by
  obtain ⟨n, rfl⟩ := Int.eq_ofNat_of_zero_le h
  rfl

theorem specialRowsFor_mem (wid th : String) (tms : Nat → Nat) (t2 : Nat) :
    ∀ o ∈ specialRowsFor wid th tms t2, o.world_id = wid ∧
      ((o.type_ = "npc" ∧ o.x = 500 ∧ o.y = 50 ∧ o.z = 500) ∨
       (o.type_ = "artifact" ∧ o.x = 512 ∧ o.y = 20 ∧ o.z = 512) ∨
       (o.type_ = "portal" ∧ o.x = 512 ∧ o.y = 100 ∧ o.z = 512)) := by
  intro o ho
  unfold specialRowsFor at ho
  split at ho
  · rw [List.mem_singleton] at ho
    subst ho
    exact ⟨rfl, Or.inl ⟨rfl, rfl, rfl, rfl⟩⟩
  · split at ho
    · rw [List.mem_singleton] at ho
      subst ho
      exact ⟨rfl, Or.inr (Or.inl ⟨rfl, rfl, rfl, rfl⟩)⟩
    · split at ho
      · rw [List.mem_singleton] at ho
        subst ho
        exact ⟨rfl, Or.inr (Or.inr ⟨rfl, rfl, rfl, rfl⟩)⟩
      · cases ho

theorem specialRowsFor_countP_npc (wid th : String) (tms : Nat → Nat) (t2 : Nat) :
    (specialRowsFor wid th tms t2).countP (fun o => o.type_ == "npc") =
      if th = "cyberpunk" then 1 else 0 := by
  by_cases h1 : th = "cyberpunk"
  · subst h1; simp [specialRowsFor, addedRow]
  · by_cases h2 : th = "fantasy"
    · subst h2; simp [specialRowsFor, addedRow]
    · by_cases h3 : th = "space"
      · subst h3; simp [specialRowsFor, addedRow]
      · simp [specialRowsFor, addedRow, h1, h2, h3]

theorem specialRowsFor_countP_artifact (wid th : String) (tms : Nat → Nat) (t2 : Nat) :
    (specialRowsFor wid th tms t2).countP (fun o => o.type_ == "artifact") =
      if th = "fantasy" then 1 else 0 := by
  by_cases h1 : th = "cyberpunk"
  · subst h1; simp [specialRowsFor, addedRow]
  · by_cases h2 : th = "fantasy"
    · subst h2; simp [specialRowsFor, addedRow]
    · by_cases h3 : th = "space"
      · subst h3; simp [specialRowsFor, addedRow]
      · simp [specialRowsFor, addedRow, h1, h2, h3]

theorem specialRowsFor_countP_portal (wid th : String) (tms : Nat → Nat) (t2 : Nat) :
    (specialRowsFor wid th tms t2).countP (fun o => o.type_ == "portal") =
      if th = "space" then 1 else 0 := by
  by_cases h1 : th = "cyberpunk"
  · subst h1; simp [specialRowsFor, addedRow]
  · by_cases h2 : th = "fantasy"
    · subst h2; simp [specialRowsFor, addedRow]
    · by_cases h3 : th = "space"
      · subst h3; simp [specialRowsFor, addedRow]
      · simp [specialRowsFor, addedRow, h1, h2, h3]


theorem keeps_bind {x : M α} {f : α → M β} (hx : KeepsIds x)
    (hf : ∀ a, KeepsIds (f a)) : KeepsIds (M.bind x f) := by
  intro s h
  unfold M.bind
  cases hxs : x s with
  | mk r s' =>
    have h' : ObjIdsOk s'.db := by
      have hh := hx s h
      rw [hxs] at hh
      exact hh
    cases r with
    | ok a => exact hf a s' h'
    | error e => exact h'

theorem keeps_pure (a : α) : KeepsIds (M.pure a) := fun _ h => h

theorem keeps_throwE (e : Err) : KeepsIds (throwE e : M α) := fun _ h => h

theorem keeps_get_world (wid : String) : KeepsIds (get_world wid) := fun _ h => h

theorem keeps_seedM (seed : Int) : KeepsIds (seedM seed) := fun _ h => h

theorem keeps_randintM (lo hi : Int) : KeepsIds (randintM lo hi) := by
  intro s h
  unfold randintM
  dsimp only
  exact h

theorem keeps_uniformM (lo hi : Rat) : KeepsIds (uniformM lo hi) := by
  intro s h
  unfold uniformM
  dsimp only
  exact h

theorem keeps_nowMs : KeepsIds nowMs := fun _ h => h

theorem objIdsOk_append_row (db : DB) (row : ObjectRow) (h : ObjIdsOk db)
    (hfresh : db.world_objects.any (fun o => o.id == row.id) = false) :
    ObjIdsOk { db with world_objects := db.world_objects ++ [row] } := by
  unfold ObjIdsOk at h ⊢
  rw [List.map_append, List.map_singleton, List.nodup_append]
  refine ⟨h, List.nodup_singleton _, ?_⟩
  intro a ha hmem
  rw [List.mem_singleton] at hmem
  subst hmem
  rw [List.any_eq_false] at hfresh
  rcases List.mem_map.mp ha with ⟨o, ho, hid⟩
  exact hfresh o ho (by rw [hid]; exact beq_self_eq_true _)

theorem keeps_add_object (wid ty nm : String) (x y z : Rat)
    (props : List (String × Val)) : KeepsIds (add_object wid ty nm x y z props) := by
  intro s h
  rw [add_object_run]
  split
  · split
    · exact h
    · dsimp only
      split
      · exact h
      · next hcol =>
        exact objIdsOk_append_row _ _ h (Bool.eq_false_iff.mpr (fun hc => hcol (by rw [hc])))
  · exact h

theorem keeps_forEachM (f : α → M Unit) (hf : ∀ a, KeepsIds (f a)) :
    ∀ L : List α, KeepsIds (forEachM f L) := by
  intro L
  induction L with
  | nil => exact keeps_pure ()
  | cons a rest ih => exact keeps_bind (hf a) (fun _ => ih)

theorem keeps_terrainStep (wid theme : String) (ij : Nat × Nat) :
    KeepsIds (terrainStep wid theme ij) := by
  unfold terrainStep
  exact keeps_bind (keeps_randintM _ _)
    (fun _ => keeps_bind (keeps_add_object _ _ _ _ _ _ _) (fun _ => keeps_pure ()))

theorem keeps_generate_terrain (wid : String) : KeepsIds (generate_terrain wid) := by
  unfold generate_terrain
  refine keeps_bind (keeps_get_world wid) ?_
  intro w?
  cases w? with
  | none => exact keeps_throwE _
  | some world =>
    exact keeps_bind (keeps_seedM _)
      (fun _ => keeps_forEachM _ (keeps_terrainStep wid world.theme) _)

theorem keeps_buildingStep (wid theme : String) (size : Int) (i : Nat) :
    KeepsIds (buildingStep wid theme size i) := by
  unfold buildingStep
  exact keeps_bind (keeps_uniformM _ _) (fun _ => keeps_bind (keeps_uniformM _ _)
    (fun _ => keeps_bind (keeps_add_object _ _ _ _ _ _ _) (fun _ => keeps_pure ())))

theorem keeps_treeStep (wid : String) (size : Int) (i : Nat) :
    KeepsIds (treeStep wid size i) := by
  unfold treeStep
  exact keeps_bind (keeps_uniformM _ _) (fun _ => keeps_bind (keeps_uniformM _ _)
    (fun _ => keeps_bind (keeps_add_object _ _ _ _ _ _ _) (fun _ => keeps_pure ())))

theorem keeps_lightStep (wid : String) (size : Int) (i : Nat) :
    KeepsIds (lightStep wid size i) := by
  unfold lightStep
  exact keeps_bind (keeps_uniformM _ _) (fun _ => keeps_bind (keeps_uniformM _ _)
    (fun _ => keeps_bind (keeps_add_object _ _ _ _ _ _ _) (fun _ => keeps_pure ())))

theorem keeps_specialStep (wid theme : String) : KeepsIds (specialStep wid theme) := by
  unfold specialStep
  split
  · exact keeps_bind (keeps_add_object _ _ _ _ _ _ _) (fun _ => keeps_pure ())
  · split
    · exact keeps_bind (keeps_add_object _ _ _ _ _ _ _) (fun _ => keeps_pure ())
    · split
      · exact keeps_bind (keeps_add_object _ _ _ _ _ _ _) (fun _ => keeps_pure ())
      · exact keeps_pure ()

theorem keeps_populate_world (wid : String) : KeepsIds (populate_world wid) := by
  unfold populate_world
  refine keeps_bind (keeps_get_world wid) ?_
  intro w?
  cases w? with
  | none => exact keeps_throwE _
  | some world =>
    refine keeps_bind (keeps_seedM _) (fun _ => ?_)
    simp only [monad_bind_eq]
    refine keeps_bind (keeps_forEachM _ (keeps_buildingStep wid world.theme world.size) _)
      (fun _ => ?_)
    split
    · exact keeps_bind (keeps_forEachM _ (keeps_treeStep wid world.size) _)
        (fun _ => keeps_bind (keeps_forEachM _ (keeps_lightStep wid world.size) _)
          (fun _ => keeps_specialStep wid world.theme))
    · exact keeps_bind (keeps_pure ())
        (fun _ => keeps_bind (keeps_forEachM _ (keeps_lightStep wid world.size) _)
          (fun _ => keeps_specialStep wid world.theme))

theorem keeps_runCmd (c : Cmd) : KeepsIds (runCmd c) := by
  cases c with
  | addObj wid ty nm x y z props =>
    exact keeps_bind (keeps_add_object wid ty nm x y z props) (fun _ => keeps_pure ())
  | genTerrain wid => exact keeps_generate_terrain wid
  | populate wid => exact keeps_populate_world wid

theorem keeps_runCmds : ∀ cmds : List Cmd, KeepsIds (runCmds cmds) := by
  intro cmds
  induction cmds with
  | nil => exact keeps_pure ()
  | cons c rest ih => exact keeps_bind (keeps_runCmd c) (fun _ => ih)

/-- Decomposition of `popRows` into its four blocks, with lengths, types
and owners. -/
theorem popRows_parts (wid th : String) (size : Int) (tms : Nat → Nat) (r0 : Rng) (t0 : Nat) :
    ∃ b t l sp, popRows wid th size tms r0 t0 = b ++ (t ++ (l ++ sp)) ∧
      b.length = 8 ∧ (∀ o ∈ b, o.type_ = "building" ∧ o.world_id = wid) ∧
      t.length = treeCount th ∧ (∀ o ∈ t, o.type_ = "tree" ∧ o.world_id = wid) ∧
      l.length = 4 ∧ (∀ o ∈ l, o.type_ = "light" ∧ o.world_id = wid) ∧
      sp = specialRowsFor wid th tms (t0 + 8 + treeCount th + 4) := by
  refine ⟨_, _, _, _, rfl, ?_, ?_, ?_, ?_, ?_, ?_, rfl⟩
  · rw [pairRowsFrom_length, List.length_range]
  · intro o ho
    have h := pairRowsFrom_mem wid "building" _ _ _ th size tms (List.range 8) r0 t0 o ho
    exact ⟨h.1, h.2.1⟩
  · by_cases htree : th ∈ (["space", "underwater"] : List String)
    · simp [htree, treeCount]
    · simp only [htree, treeCount, if_false]
      rw [pairRowsFrom_length, List.length_range]
  · intro o ho
    by_cases htree : th ∈ (["space", "underwater"] : List String)
    · rw [if_pos htree] at ho
      cases ho
    · rw [if_neg htree] at ho
      have h := pairRowsFrom_mem wid "tree" _ _ _ th size tms (List.range 15) _ _ o ho
      exact ⟨h.1, h.2.1⟩
  · rw [pairRowsFrom_length, List.length_range]
  · intro o ho
    have h := pairRowsFrom_mem wid "light" _ _ _ th size tms (List.range 4) _ _ o ho
    exact ⟨h.1, h.2.1⟩

theorem countP_of_all {p : ObjectRow → Bool} (l : List ObjectRow)
    (h : ∀ o ∈ l, p o = true) : l.countP p = l.length :=
  List.countP_eq_length.mpr h

theorem countP_of_none {p : ObjectRow → Bool} (l : List ObjectRow)
    (h : ∀ o ∈ l, p o = false) : l.countP p = 0 :=
  List.countP_eq_zero.mpr (fun o ho => by rw [h o ho]; exact Bool.false_ne_true)

theorem lookup_filter_of_not_mem (ks : List String) :
    ∀ (props : List (String × Val)) (k : String), k ∉ ks →
      (props.filter (fun kv => kv.1 ∉ ks)).lookup k = props.lookup k := by
  intro props
  induction props with
  | nil => intro k hk; rfl
  | cons kv rest ih =>
    intro k hk
    by_cases hmem : kv.1 ∈ ks
    · rw [List.filter_cons_of_neg (by simpa using hmem)]
      rw [ih k hk]
      have hne : (k == kv.1) = false :=
        beq_eq_false_iff_ne.mpr (fun he => hk (by rw [he]; exact hmem))
      rw [List.lookup_cons, hne]
    · rw [List.filter_cons_of_pos (by simpa using hmem)]
      rw [List.lookup_cons, List.lookup_cons]
      cases hkv : k == kv.1
      · simp only [hkv]
        exact ih k hk
      · simp only [hkv]

theorem lookup_filter_of_mem (ks : List String) :
    ∀ (props : List (String × Val)) (k : String), k ∈ ks →
      (props.filter (fun kv => kv.1 ∉ ks)).lookup k = none := by
  intro props
  induction props with
  | nil => intro k hk; rfl
  | cons kv rest ih =>
    intro k hk
    by_cases hmem : kv.1 ∈ ks
    · rw [List.filter_cons_of_neg (by simpa using hmem)]
      exact ih k hk
    · rw [List.filter_cons_of_pos (by simpa using hmem)]
      rw [List.lookup_cons]
      have hne : (k == kv.1) = false :=
        beq_eq_false_iff_ne.mpr (fun he => hmem (by rw [← he]; exact hk))
      rw [hne]
      exact ih k hk










/-- Claim C5: `create_world` with a theme outside the eight-theme enum and
`add_object` with a type outside the nine-type enum both fail with the
invalid-argument `ValueError`, and in both cases the entire process state
(in particular every table) is left exactly as it was: validation happens
before any persistence side effect. -/
theorem claim_C5_enum_validation :
    (∀ (s : PyState) (name theme : String) (seed? : Option Int) (size : Int),
      theme ∉ THEMES →
      create_world name theme seed? size s =
        (.error (.valueError
          ("Invalid theme. Choose from: " ++ String.intercalate ", " THEMES)), s)) ∧
    (∀ (s : PyState) (wid ty nm : String) (x y z : Rat) (props : List (String × Val)),
      ty ∉ OBJECT_TYPES →
      add_object wid ty nm x y z props s = (.error (.valueError invalidTypeMsg), s)) := by
  constructor
  · intro s name theme seed? size hth
    unfold create_world
    rw [if_pos hth]
    rfl
  · intro s wid ty nm x y z props hty
    rw [add_object_run, if_neg hty]

/-- Witness for C5 at the spec's own inputs: theme "medieval" and object
type "spaceship", against the empty store. -/
theorem claim_C5_enum_validation_witness :
    ("medieval" ∉ THEMES ∧
      create_world "Castle" "medieval" (some 1) 1024 stateW =
        (.error (.valueError
          ("Invalid theme. Choose from: " ++ String.intercalate ", " THEMES)), stateW)) ∧
    ("spaceship" ∉ OBJECT_TYPES ∧
      add_object "w1" "spaceship" "ship" 0 0 0 [] stateW =
        (.error (.valueError invalidTypeMsg), stateW)) :=
  ⟨⟨by decide, claim_C5_enum_validation.1 stateW "Castle" "medieval" (some 1) 1024 (by decide)⟩,
   ⟨by decide, claim_C5_enum_validation.2 stateW "w1" "spaceship" "ship" 0 0 0 [] (by decide)⟩⟩

/-- Claim C10: in `add_object` the type validation precedes the world
lookup: with an invalid type the call raises the invalid-type
`ValueError` even when the world id resolves to nothing, and that error
is not the not-found error. -/
theorem claim_C10_type_check_before_lookup (s : PyState) (wid ty nm : String)
    (x y z : Rat) (props : List (String × Val))
    (hty : ty ∉ OBJECT_TYPES)
    (hnoworld : s.db.worlds.find? (fun w => w.id == wid) = none) :
    add_object wid ty nm x y z props s = (.error (.valueError invalidTypeMsg), s) ∧
    invalidTypeMsg ≠ "World " ++ wid ++ " not found" := by
  refine ⟨by rw [add_object_run, if_neg hty], ?_⟩
  intro h
  have h1 : invalidTypeMsg.data.head? = some 'I' := by decide
  have h2 : ("World " ++ wid ++ " not found").data.head? = some 'W' := by
    rw [String.data_append, String.data_append]
    rw [show "World ".data = ['W', 'o', 'r', 'l', 'd', ' '] from rfl]
    rfl
  rw [h, h2] at h1
  exact absurd h1 (by decide)

/-- Witness for C10: the invalid type "spaceship" against an id absent
from the empty store still yields the invalid-type error. -/
theorem claim_C10_type_check_before_lookup_witness :
    "spaceship" ∉ OBJECT_TYPES ∧
    stateW.db.worlds.find? (fun w => w.id == "nope") = none ∧
    (add_object "nope" "spaceship" "ship" 0 0 0 [] stateW =
      (.error (.valueError invalidTypeMsg), stateW) ∧
     invalidTypeMsg ≠ "World " ++ "nope" ++ " not found") :=
  ⟨by decide, by decide,
   claim_C10_type_check_before_lookup stateW "nope" "spaceship" "ship" 0 0 0 []
     (by decide) (by decide)⟩

/-- Claim C1 (code bug): for every stored world, the generic JSON export
raises `TypeError` instead of returning the scene structure, because
`get_world` builds `MetaverseWorld(*row)` positionally, landing the
description column in `created_at`, which `datetime.fromtimestamp`
rejects.  The export therefore never reproduces the stored data. -/
theorem claim_C1_export_json_raises (wid : String) (s : PyState) (wrow : WorldRow)
    (hfind : s.db.worlds.find? (fun w => w.id == wid) = some wrow) :
    export_json wid s = (.error .typeError, s) :=
  export_json_typeError wid s wrow hfind

/-- Witness for C1: the concrete stored world "world_0" makes the export
raise. -/
theorem claim_C1_export_json_raises_witness :
    stateAurora.db.worlds.find? (fun w => w.id == "world_0") = some auroraRow ∧
    export_json "world_0" stateAurora = (.error .typeError, stateAurora) :=
  ⟨by decide, claim_C1_export_json_raises "world_0" stateAurora auroraRow (by decide)⟩

/-- Claim C8: whatever sequence of `add_object`, `generate_terrain` and
`populate_world` commands runs, object ids stay pairwise distinct within
every world (they are generated, never caller-supplied, and the primary
key refuses duplicates). -/
theorem claim_C8_object_id_uniqueness (cmds : List Cmd) (s : PyState)
    (h : ObjIdsOk s.db) (wid : String) :
    ((((runCmds cmds s).2).db.world_objects.filter
      (fun o => o.world_id == wid)).map (fun o => o.id)).Nodup := by
  have hOk : ObjIdsOk ((runCmds cmds s).2).db := keeps_runCmds cmds s h
  exact List.Nodup.sublist (List.Sublist.map _ (List.filter_sublist _)) hOk

/-- Witness for C8: a concrete command sequence over the Aurora store. -/
theorem claim_C8_object_id_uniqueness_witness :
    ObjIdsOk stateAurora.db ∧
    ∀ wid, ((((runCmds [Cmd.addObj "world_0" "tree" "t" 1 2 3 [], Cmd.populate "world_0"]
      stateAurora).2).db.world_objects.filter
        (fun o => o.world_id == wid)).map (fun o => o.id)).Nodup :=
  ⟨by unfold ObjIdsOk; decide,
   claim_C8_object_id_uniqueness
     [Cmd.addObj "world_0" "tree" "t" 1 2 3 [], Cmd.populate "world_0"]
     stateAurora (by unfold ObjIdsOk; decide)⟩

/-- Claim C9: for a stored world with N objects, the glTF stub holds one
scene listing node indices 0..N-1 in object order, one node per object
carrying its name, translation and uniform scale triple, and one
geometry-less placeholder mesh per object, nodes in storage order. -/
theorem claim_C9_gltf_stub (wid : String) (s : PyState) (wrow : WorldRow)
    (hfind : s.db.worlds.find? (fun w => w.id == wid) = some wrow) :
    ∃ out, export_gltf_stub wid s = (.ok out, s) ∧
      out.scenes = [⟨wrow.name,
        List.range ((s.db.world_objects.filter (fun o => o.world_id == wid)).length)⟩] ∧
      out.nodes.length =
        (s.db.world_objects.filter (fun o => o.world_id == wid)).length ∧
      (∀ k : Nat, out.nodes[k]? =
        (((s.db.world_objects.filter (fun o => o.world_id == wid))[k]?).map
          (fun r => nodeOf (objOfRow r)))) ∧
      out.meshes = List.replicate
        ((s.db.world_objects.filter (fun o => o.world_id == wid)).length) meshStub ∧
      out.scene = 0 := by
  refine ⟨_, export_gltf_run wid s wrow hfind, ?_, ?_, ?_, ?_, rfl⟩
  · rw [List.length_map]
  · rw [List.length_map, List.length_map]
  · intro k
    rw [List.getElem?_map, List.getElem?_map, Option.map_map]
    rfl
  · have hconst : ∀ {α : Type} (l : List α),
        l.map (fun _ => meshStub) = List.replicate l.length meshStub := by
      intro α l
      induction l with
      | nil => rfl
      | cons a rest ih => simp [List.replicate_succ, ih]
    dsimp only
    rw [hconst, List.length_map]

/-- Witness for C9 at the Aurora store after terrain generation. -/
theorem claim_C9_gltf_stub_witness :
    stateAuroraTerrain.db.worlds.find? (fun w => w.id == "world_0") = some auroraRow ∧
    ∃ out, export_gltf_stub "world_0" stateAuroraTerrain = (.ok out, stateAuroraTerrain) ∧
      out.scenes = [⟨auroraRow.name,
        List.range ((stateAuroraTerrain.db.world_objects.filter
          (fun o => o.world_id == "world_0")).length)⟩] ∧
      out.nodes.length = (stateAuroraTerrain.db.world_objects.filter
        (fun o => o.world_id == "world_0")).length ∧
      (∀ k : Nat, out.nodes[k]? =
        (((stateAuroraTerrain.db.world_objects.filter
          (fun o => o.world_id == "world_0"))[k]?).map (fun r => nodeOf (objOfRow r)))) ∧
      out.meshes = List.replicate ((stateAuroraTerrain.db.world_objects.filter
        (fun o => o.world_id == "world_0")).length) meshStub ∧
      out.scene = 0 :=
  ⟨by decide, claim_C9_gltf_stub "world_0" stateAuroraTerrain auroraRow (by decide)⟩

/-- Claim C3: terrain generation on a world of nonnegative size S
succeeds (given fresh generated ids) and appends exactly
`(S.toNat / 256)^2` terrain objects — `⌊S/256⌋` for the nonnegative sizes
the model covers — where the object for grid cell `(i, j)` sits at
position `(256*i, h, 256*j)` with an integer height `h ∈ [-10, 50]`, is
named `terrain_i_j`, has scale 256 and the theme's terrain color (with
the neutral-gray fallback built into `get_terrain_color`); a size below
256 adds no objects and changes nothing but the reseeded generator. -/
theorem claim_C3_terrain_grid (wid : String) (s : PyState) (wrow : WorldRow)
    (hfind : s.db.worlds.find? (fun w => w.id == wid) = some wrow)
    (hsize : 0 ≤ wrow.size)
    (hnd : (genIds s.timeMsStream s.tick
      ((wrow.size.toNat / 256) * (wrow.size.toNat / 256))).Nodup)
    (hfresh : ∀ a ∈ genIds s.timeMsStream s.tick
      ((wrow.size.toNat / 256) * (wrow.size.toNat / 256)),
      s.db.world_objects.any (fun o => o.id == a) = false) :
    ∃ s' added,
      generate_terrain wid s = (.ok (), s') ∧
      s'.db.world_objects = s.db.world_objects ++ added ∧
      added.length = (wrow.size.toNat / 256) * (wrow.size.toNat / 256) ∧
      (∀ o ∈ added, o.type_ = "terrain" ∧ o.world_id = wid) ∧
      (∀ i j : Nat, i < wrow.size.toNat / 256 → j < wrow.size.toNat / 256 →
        ∃ o h, added[i * (wrow.size.toNat / 256) + j]? = some o ∧
          o.name = "terrain_" ++ toString i ++ "_" ++ toString j ∧
          o.x = ((i * 256 : Nat) : Rat) ∧ o.z = ((j * 256 : Nat) : Rat) ∧
          o.y = ((h : Int) : Rat) ∧ -10 ≤ h ∧ h ≤ 50 ∧
          o.scale = Val.num 256 ∧
          o.color = Val.str (get_terrain_color wrow.theme)) ∧
      (wrow.size < 256 → added = [] ∧ s' = { s with rng := seedRng wrow.seed }) := by
  have hg : gridSizeOf wrow.size = wrow.size.toNat / 256 := gridSizeOf_toNat _ hsize
  have hlen : (cellPairs (gridSizeOf wrow.size)).length =
      (wrow.size.toNat / 256) * (wrow.size.toNat / 256) := by
    rw [cellPairs_length, hg]
  have hnd' : (genIds s.timeMsStream s.tick
      (cellPairs (gridSizeOf wrow.size)).length).Nodup := by
    rw [hlen]; exact hnd
  have hfresh' : ∀ a ∈ genIds s.timeMsStream s.tick
      (cellPairs (gridSizeOf wrow.size)).length,
      s.db.world_objects.any (fun o => o.id == a) = false := by
    rw [hlen]; exact hfresh
  refine ⟨_, terrainRowsFrom wid wrow.theme s.timeMsStream (seedRng wrow.seed) s.tick
      (cellPairs (gridSizeOf wrow.size)),
    generate_terrain_run wid s wrow hfind hnd' hfresh', rfl, ?_, ?_, ?_, ?_⟩
  · rw [terrainRowsFrom_length, hlen]
  · intro o ho
    exact terrainRowsFrom_mem wid wrow.theme s.timeMsStream _ _ _ o ho
  · intro i j hi hj
    have hcell : (cellPairs (gridSizeOf wrow.size))[i * (wrow.size.toNat / 256) + j]? =
        some (i, j) := by
      rw [hg]
      exact cellPairs_getElem _ i j hi hj
    have hrow := terrainRowsFrom_getElem wid wrow.theme s.timeMsStream
      (cellPairs (gridSizeOf wrow.size)) (seedRng wrow.seed) s.tick
      (i * (wrow.size.toNat / 256) + j) (i, j) hcell
    refine ⟨_, heightAt (seedRng wrow.seed) (i * (wrow.size.toNat / 256) + j),
      hrow, rfl, rfl, rfl, rfl, ?_, ?_, rfl, rfl⟩
    · exact (randint_range (-10) 50 _ (by omega)).1
    · exact (randint_range (-10) 50 _ (by omega)).2
  · intro hsmall
    have hg0 : gridSizeOf wrow.size = 0 := by
      rw [hg]
      have h1 : wrow.size.toNat < 256 := by omega
      omega
    constructor
    · rw [hg0]
      rfl
    · rw [hg0]
      simp [rngSteps_zero, cellPairs, terrainRowsFrom_nil]

/-- Witness for C3 at the Aurora world: size 512 gives the 2-by-2 grid. -/
theorem claim_C3_terrain_grid_witness :
    (stateAurora.db.worlds.find? (fun w => w.id == "world_0") = some auroraRow ∧
     0 ≤ auroraRow.size ∧
     (genIds stateAurora.timeMsStream stateAurora.tick
       ((auroraRow.size.toNat / 256) * (auroraRow.size.toNat / 256))).Nodup) ∧
    ∃ s' added,
      generate_terrain "world_0" stateAurora = (.ok (), s') ∧
      s'.db.world_objects = stateAurora.db.world_objects ++ added ∧
      added.length = (auroraRow.size.toNat / 256) * (auroraRow.size.toNat / 256) ∧
      (∀ o ∈ added, o.type_ = "terrain" ∧ o.world_id = "world_0") ∧
      (∀ i j : Nat, i < auroraRow.size.toNat / 256 → j < auroraRow.size.toNat / 256 →
        ∃ o h, added[i * (auroraRow.size.toNat / 256) + j]? = some o ∧
          o.name = "terrain_" ++ toString i ++ "_" ++ toString j ∧
          o.x = ((i * 256 : Nat) : Rat) ∧ o.z = ((j * 256 : Nat) : Rat) ∧
          o.y = ((h : Int) : Rat) ∧ -10 ≤ h ∧ h ≤ 50 ∧
          o.scale = Val.num 256 ∧
          o.color = Val.str (get_terrain_color auroraRow.theme)) ∧
      (auroraRow.size < 256 → added = [] ∧
        s' = { stateAurora with rng := seedRng auroraRow.seed }) :=
  ⟨⟨by decide, by decide, by decide⟩,
   claim_C3_terrain_grid "world_0" stateAurora auroraRow (by decide) (by decide)
     (by decide) (by decide)⟩

/-- Claim C2: terrain generation is deterministic in (theme, seed, size).
Run against two fresh worlds (no stored objects yet) that share theme,
seed and size — in possibly different databases, under different world
ids, clocks and prior generator states — it succeeds on both and the two
worlds' object sets agree in count and in the (x, y, z, color) data of
every object, in order, because the shared generator is reseeded with
the world's seed before any draw. -/
theorem claim_C2_terrain_determinism (wid1 wid2 : String) (s1 s2 : PyState)
    (w1 w2 : WorldRow)
    (hf1 : s1.db.worlds.find? (fun w => w.id == wid1) = some w1)
    (hf2 : s2.db.worlds.find? (fun w => w.id == wid2) = some w2)
    (hseed : w1.seed = w2.seed) (hsize : w1.size = w2.size)
    (htheme : w1.theme = w2.theme)
    (hempty1 : s1.db.world_objects.filter (fun o => o.world_id == wid1) = [])
    (hempty2 : s2.db.world_objects.filter (fun o => o.world_id == wid2) = [])
    (hnd1 : (genIds s1.timeMsStream s1.tick
      (cellPairs (gridSizeOf w1.size)).length).Nodup)
    (hfresh1 : ∀ a ∈ genIds s1.timeMsStream s1.tick
      (cellPairs (gridSizeOf w1.size)).length,
      s1.db.world_objects.any (fun o => o.id == a) = false)
    (hnd2 : (genIds s2.timeMsStream s2.tick
      (cellPairs (gridSizeOf w2.size)).length).Nodup)
    (hfresh2 : ∀ a ∈ genIds s2.timeMsStream s2.tick
      (cellPairs (gridSizeOf w2.size)).length,
      s2.db.world_objects.any (fun o => o.id == a) = false) :
    ∃ s1' s2',
      generate_terrain wid1 s1 = (.ok (), s1') ∧
      generate_terrain wid2 s2 = (.ok (), s2') ∧
      (s1'.db.world_objects.filter (fun o => o.world_id == wid1)).length =
        (s2'.db.world_objects.filter (fun o => o.world_id == wid2)).length ∧
      (s1'.db.world_objects.filter (fun o => o.world_id == wid1)).map
          (fun o => (o.x, o.y, o.z, o.color)) =
        (s2'.db.world_objects.filter (fun o => o.world_id == wid2)).map
          (fun o => (o.x, o.y, o.z, o.color)) := by
  refine ⟨_, _, generate_terrain_run wid1 s1 w1 hf1 hnd1 hfresh1,
    generate_terrain_run wid2 s2 w2 hf2 hnd2 hfresh2, ?_⟩
  have e1 : (s1.db.world_objects ++ terrainRowsFrom wid1 w1.theme s1.timeMsStream
        (seedRng w1.seed) s1.tick (cellPairs (gridSizeOf w1.size))).filter
        (fun o => o.world_id == wid1) =
      terrainRowsFrom wid1 w1.theme s1.timeMsStream (seedRng w1.seed) s1.tick
        (cellPairs (gridSizeOf w1.size)) := by
    rw [List.filter_append, hempty1, List.nil_append]
    refine List.filter_eq_self.mpr (fun o ho => ?_)
    have hm := (terrainRowsFrom_mem wid1 w1.theme s1.timeMsStream _ _ _ o ho).2
    rw [hm]
    exact beq_self_eq_true _
  have e2 : (s2.db.world_objects ++ terrainRowsFrom wid2 w2.theme s2.timeMsStream
        (seedRng w2.seed) s2.tick (cellPairs (gridSizeOf w2.size))).filter
        (fun o => o.world_id == wid2) =
      terrainRowsFrom wid2 w2.theme s2.timeMsStream (seedRng w2.seed) s2.tick
        (cellPairs (gridSizeOf w2.size)) := by
    rw [List.filter_append, hempty2, List.nil_append]
    refine List.filter_eq_self.mpr (fun o ho => ?_)
    have hm := (terrainRowsFrom_mem wid2 w2.theme s2.timeMsStream _ _ _ o ho).2
    rw [hm]
    exact beq_self_eq_true _
  have hmap : (terrainRowsFrom wid1 w1.theme s1.timeMsStream (seedRng w1.seed) s1.tick
        (cellPairs (gridSizeOf w1.size))).map (fun o => (o.x, o.y, o.z, o.color)) =
      (terrainRowsFrom wid2 w2.theme s2.timeMsStream (seedRng w2.seed) s2.tick
        (cellPairs (gridSizeOf w2.size))).map (fun o => (o.x, o.y, o.z, o.color)) := by
    rw [htheme, hseed, hsize]
    exact terrainRowsFrom_proj wid1 wid2 w2.theme s1.timeMsStream s2.timeMsStream
      (cellPairs (gridSizeOf w2.size)) (seedRng w2.seed) s1.tick s2.tick
  constructor
  · rw [e1, e2, terrainRowsFrom_length, terrainRowsFrom_length, hsize]
  · rw [e1, e2]
    exact hmap

/-- Witness for C2: two copies of the Aurora world in independent fresh
states agree object-for-object after terrain generation. -/
theorem claim_C2_terrain_determinism_witness :
    (stateAurora.db.worlds.find? (fun w => w.id == "world_0") = some auroraRow ∧
     stateAurora.db.world_objects.filter (fun o => o.world_id == "world_0") = []) ∧
    ∃ s1' s2',
      generate_terrain "world_0" stateAurora = (.ok (), s1') ∧
      generate_terrain "world_0" stateAurora = (.ok (), s2') ∧
      (s1'.db.world_objects.filter (fun o => o.world_id == "world_0")).length =
        (s2'.db.world_objects.filter (fun o => o.world_id == "world_0")).length ∧
      (s1'.db.world_objects.filter (fun o => o.world_id == "world_0")).map
          (fun o => (o.x, o.y, o.z, o.color)) =
        (s2'.db.world_objects.filter (fun o => o.world_id == "world_0")).map
          (fun o => (o.x, o.y, o.z, o.color)) :=
  ⟨⟨by decide, rfl⟩,
   claim_C2_terrain_determinism "world_0" "world_0" stateAurora stateAurora
     auroraRow auroraRow (by decide) (by decide) rfl rfl rfl rfl rfl
     (by decide) (by decide) (by decide) (by decide)⟩

/-- Claim C4: population (given fresh generated ids) succeeds and adds
exactly 8 buildings, 15 trees — 0 when the theme is space or
underwater — 4 lights, and exactly one fixed-coordinate special object
for cyberpunk (an npc at (500, 50, 500)), fantasy (an artifact at
(512, 20, 512)) and space (a portal at (512, 100, 512)), none for any
other theme; and in the concrete scenario
`create_world "Aurora" "arctic" 42 512` followed by terrain generation
and population, retrieving the world reports 4 + 8 + 15 + 4 = 31 stored
objects. -/
theorem claim_C4_population_counts :
    (∀ (wid : String) (s : PyState) (wrow : WorldRow),
      s.db.worlds.find? (fun w => w.id == wid) = some wrow →
      (genIds s.timeMsStream s.tick (popCount wrow.theme)).Nodup →
      (∀ a ∈ genIds s.timeMsStream s.tick (popCount wrow.theme),
        s.db.world_objects.any (fun o => o.id == a) = false) →
      ∃ s' added,
        populate_world wid s = (.ok (), s') ∧
        s'.db.world_objects = s.db.world_objects ++ added ∧
        added.countP (fun o => o.type_ == "building") = 8 ∧
        added.countP (fun o => o.type_ == "tree") =
          (if wrow.theme ∈ (["space", "underwater"] : List String) then 0 else 15) ∧
        added.countP (fun o => o.type_ == "light") = 4 ∧
        added.countP (fun o => o.type_ == "npc") =
          (if wrow.theme = "cyberpunk" then 1 else 0) ∧
        added.countP (fun o => o.type_ == "artifact") =
          (if wrow.theme = "fantasy" then 1 else 0) ∧
        added.countP (fun o => o.type_ == "portal") =
          (if wrow.theme = "space" then 1 else 0) ∧
        (∀ o ∈ added, o.type_ = "npc" → o.x = 500 ∧ o.y = 50 ∧ o.z = 500) ∧
        (∀ o ∈ added, o.type_ = "artifact" → o.x = 512 ∧ o.y = 20 ∧ o.z = 512) ∧
        (∀ o ∈ added, o.type_ = "portal" → o.x = 512 ∧ o.y = 100 ∧ o.z = 512) ∧
        added.length = 8 + treeCount wrow.theme + 4 + specialCount wrow.theme) ∧
    (∃ w s1 s2 s3,
      create_world "Aurora" "arctic" (some 42) 512 stateW = (.ok w, s1) ∧
      generate_terrain "world_0" s1 = (.ok (), s2) ∧
      populate_world "world_0" s2 = (.ok (), s3) ∧
      (lookupWorld s3.db "world_0").map (fun v => v.objects.length) = some 31) := by
  constructor
  · intro wid s wrow hfind hnd hfresh
    obtain ⟨b, t, l, sp, hsplit, hb, hbmem, ht, htmem, hl, hlmem, hsp⟩ :=
      popRows_parts wid wrow.theme wrow.size s.timeMsStream (seedRng wrow.seed) s.tick
    subst hsp
    have hsplen : ∀ t2 : Nat,
        (specialRowsFor wid wrow.theme s.timeMsStream t2).length =
          specialCount wrow.theme := by
      intro t2
      by_cases h1 : wrow.theme = "cyberpunk"
      · rw [h1]; rfl
      · by_cases h2 : wrow.theme = "fantasy"
        · rw [h2]; rfl
        · by_cases h3 : wrow.theme = "space"
          · rw [h3]; rfl
          · simp [specialRowsFor, specialCount, h1, h2, h3]
    have hspmem := specialRowsFor_mem wid wrow.theme s.timeMsStream
      (s.tick + 8 + treeCount wrow.theme + 4)
    refine ⟨_, _, populate_world_run wid s wrow hfind hnd hfresh, rfl,
      ?_, ?_, ?_, ?_, ?_, ?_, ?_, ?_, ?_, ?_⟩
    · rw [hsplit, List.countP_append, List.countP_append, List.countP_append,
        countP_of_all b (fun o ho => by simp [(hbmem o ho).1]),
        countP_of_none t (fun o ho => by simp [(htmem o ho).1]),
        countP_of_none l (fun o ho => by simp [(hlmem o ho).1]),
        countP_of_none _ (fun o ho => by
          rcases (hspmem o ho).2 with ⟨h, -⟩ | ⟨h, -⟩ | ⟨h, -⟩ <;> simp [h]), hb]
    · rw [hsplit, List.countP_append, List.countP_append, List.countP_append,
        countP_of_none b (fun o ho => by simp [(hbmem o ho).1]),
        countP_of_all t (fun o ho => by simp [(htmem o ho).1]),
        countP_of_none l (fun o ho => by simp [(hlmem o ho).1]),
        countP_of_none _ (fun o ho => by
          rcases (hspmem o ho).2 with ⟨h, -⟩ | ⟨h, -⟩ | ⟨h, -⟩ <;> simp [h]), ht]
      simp [treeCount]
    · rw [hsplit, List.countP_append, List.countP_append, List.countP_append,
        countP_of_none b (fun o ho => by simp [(hbmem o ho).1]),
        countP_of_none t (fun o ho => by simp [(htmem o ho).1]),
        countP_of_all l (fun o ho => by simp [(hlmem o ho).1]),
        countP_of_none _ (fun o ho => by
          rcases (hspmem o ho).2 with ⟨h, -⟩ | ⟨h, -⟩ | ⟨h, -⟩ <;> simp [h]), hl]
    · rw [hsplit, List.countP_append, List.countP_append, List.countP_append,
        countP_of_none b (fun o ho => by simp [(hbmem o ho).1]),
        countP_of_none t (fun o ho => by simp [(htmem o ho).1]),
        countP_of_none l (fun o ho => by simp [(hlmem o ho).1]),
        specialRowsFor_countP_npc]
      simp
    · rw [hsplit, List.countP_append, List.countP_append, List.countP_append,
        countP_of_none b (fun o ho => by simp [(hbmem o ho).1]),
        countP_of_none t (fun o ho => by simp [(htmem o ho).1]),
        countP_of_none l (fun o ho => by simp [(hlmem o ho).1]),
        specialRowsFor_countP_artifact]
      simp
    · rw [hsplit, List.countP_append, List.countP_append, List.countP_append,
        countP_of_none b (fun o ho => by simp [(hbmem o ho).1]),
        countP_of_none t (fun o ho => by simp [(htmem o ho).1]),
        countP_of_none l (fun o ho => by simp [(hlmem o ho).1]),
        specialRowsFor_countP_portal]
      simp
    · intro o ho hty
      rw [hsplit] at ho
      rcases List.mem_append.mp ho with h | h
      · exact absurd ((hbmem o h).1.symm.trans hty) (by decide)
      · rcases List.mem_append.mp h with h2 | h2
        · exact absurd ((htmem o h2).1.symm.trans hty) (by decide)
        · rcases List.mem_append.mp h2 with h3 | h3
          · exact absurd ((hlmem o h3).1.symm.trans hty) (by decide)
          · rcases (hspmem o h3).2 with ⟨ht4, hx, hy, hz⟩ | ⟨ht4, hx, hy, hz⟩ |
              ⟨ht4, hx, hy, hz⟩
            · exact ⟨hx, hy, hz⟩
            · exact absurd (ht4.symm.trans hty) (by decide)
            · exact absurd (ht4.symm.trans hty) (by decide)
    · intro o ho hty
      rw [hsplit] at ho
      rcases List.mem_append.mp ho with h | h
      · exact absurd ((hbmem o h).1.symm.trans hty) (by decide)
      · rcases List.mem_append.mp h with h2 | h2
        · exact absurd ((htmem o h2).1.symm.trans hty) (by decide)
        · rcases List.mem_append.mp h2 with h3 | h3
          · exact absurd ((hlmem o h3).1.symm.trans hty) (by decide)
          · rcases (hspmem o h3).2 with ⟨ht4, hx, hy, hz⟩ | ⟨ht4, hx, hy, hz⟩ |
              ⟨ht4, hx, hy, hz⟩
            · exact absurd (ht4.symm.trans hty) (by decide)
            · exact ⟨hx, hy, hz⟩
            · exact absurd (ht4.symm.trans hty) (by decide)
    · intro o ho hty
      rw [hsplit] at ho
      rcases List.mem_append.mp ho with h | h
      · exact absurd ((hbmem o h).1.symm.trans hty) (by decide)
      · rcases List.mem_append.mp h with h2 | h2
        · exact absurd ((htmem o h2).1.symm.trans hty) (by decide)
        · rcases List.mem_append.mp h2 with h3 | h3
          · exact absurd ((hlmem o h3).1.symm.trans hty) (by decide)
          · rcases (hspmem o h3).2 with ⟨ht4, hx, hy, hz⟩ | ⟨ht4, hx, hy, hz⟩ |
              ⟨ht4, hx, hy, hz⟩
            · exact absurd (ht4.symm.trans hty) (by decide)
            · exact absurd (ht4.symm.trans hty) (by decide)
            · exact ⟨hx, hy, hz⟩
    · rw [hsplit]
      simp only [List.length_append, hb, ht, hl, hsplen]
      omega
  · refine ⟨⟨"world_0", "Aurora", "arctic", 42, 512, [], Val.num (secondsOfMs 0), ""⟩,
      stateAurora, stateAuroraTerrain, stateAuroraPop, ?g1, ?g2, ?g3, ?g4⟩
    case g1 =>
      rw [create_world_run "Aurora" "arctic" 42 512 stateW (by decide) (by decide)]
      rfl
    case g2 =>
      rw [generate_terrain_run "world_0" stateAurora auroraRow (by decide) (by decide)
        (by decide)]
      rfl
    case g3 =>
      rw [populate_world_run "world_0" stateAuroraTerrain auroraRow (by decide) (by decide)
        (by decide)]
      rfl
    case g4 => decide

/-- Witness for C4 at the terrain-populated Aurora world (theme arctic:
15 trees, no special object). -/
theorem claim_C4_population_counts_witness :
    (stateAuroraTerrain.db.worlds.find? (fun w => w.id == "world_0") = some auroraRow ∧
     (genIds stateAuroraTerrain.timeMsStream stateAuroraTerrain.tick
       (popCount auroraRow.theme)).Nodup) ∧
    ∃ s' added,
      populate_world "world_0" stateAuroraTerrain = (.ok (), s') ∧
      s'.db.world_objects = stateAuroraTerrain.db.world_objects ++ added ∧
      added.countP (fun o => o.type_ == "building") = 8 ∧
      added.countP (fun o => o.type_ == "tree") =
        (if auroraRow.theme ∈ (["space", "underwater"] : List String) then 0 else 15) ∧
      added.countP (fun o => o.type_ == "light") = 4 ∧
      added.countP (fun o => o.type_ == "npc") =
        (if auroraRow.theme = "cyberpunk" then 1 else 0) ∧
      added.countP (fun o => o.type_ == "artifact") =
        (if auroraRow.theme = "fantasy" then 1 else 0) ∧
      added.countP (fun o => o.type_ == "portal") =
        (if auroraRow.theme = "space" then 1 else 0) ∧
      (∀ o ∈ added, o.type_ = "npc" → o.x = 500 ∧ o.y = 50 ∧ o.z = 500) ∧
      (∀ o ∈ added, o.type_ = "artifact" → o.x = 512 ∧ o.y = 20 ∧ o.z = 512) ∧
      (∀ o ∈ added, o.type_ = "portal" → o.x = 512 ∧ o.y = 100 ∧ o.z = 512) ∧
      added.length = 8 + treeCount auroraRow.theme + 4 + specialCount auroraRow.theme :=
  ⟨⟨by decide, by decide⟩,
   claim_C4_population_counts.1 "world_0" stateAuroraTerrain auroraRow
     (by decide) (by decide) (by decide)⟩

theorem filter_teleport_upd (pid wid : String) (x y z ts : Rat) :
    ∀ l : List PlayerPosRow,
      (l.map (fun r => if r.player_id == pid && r.world_id == wid then { r with x := x, y := y, z := z, teleported_at := ts } else r)).filter (fun r => r.player_id == pid && r.world_id == wid) =
        (l.filter (fun r => r.player_id == pid && r.world_id == wid)).map (fun r => { r with x := x, y := y, z := z, teleported_at := ts }) := by
  intro l
  induction l with
  | nil => rfl
  | cons a rest ih =>
    cases hpa : (a.player_id == pid && a.world_id == wid)
    · simp only [List.map_cons, hpa, Bool.false_eq_true, if_false, List.filter_cons, ih]
    · simp only [List.map_cons, hpa, if_true, List.filter_cons, ih]

/-- Claim C6: from any state respecting the composite primary key (at
most one stored row per (player, world) pair), two consecutive teleports
of the same player in the same world with different coordinates both
return successfully — the duplicate-key conflict on the second insert is
absorbed by the update branch — and leave exactly one position row for
the pair, carrying the second call's coordinates and timestamp. -/
theorem claim_C6_teleport_upsert (wid pid : String) (x1 y1 z1 x2 y2 z2 : Rat)
    (s : PyState)
    (hpk : (s.db.player_positions.filter
      (fun r => r.player_id == pid && r.world_id == wid)).length ≤ 1)
    (hne : (x1, y1, z1) ≠ (x2, y2, z2)) :
    ∃ s1 s2,
      teleport wid pid x1 y1 z1 s = (.ok (), s1) ∧
      teleport wid pid x2 y2 z2 s1 = (.ok (), s2) ∧
      s2.db.player_positions.filter
          (fun r => r.player_id == pid && r.world_id == wid) =
        [⟨pid, wid, x2, y2, z2, secondsOfMs (s.timeMsStream (s.tick + 1))⟩] := by
  have h1 := teleport_run wid pid x1 y1 z1 s
  cases hcond : s.db.player_positions.any
      (fun r => r.player_id == pid && r.world_id == wid)
  · rw [hcond] at h1
    simp only [Bool.false_eq_true, if_false] at h1
    have hfilP : s.db.player_positions.filter
        (fun r => r.player_id == pid && r.world_id == wid) = [] :=
      List.filter_eq_nil_iff.mpr (List.any_eq_false.mp hcond)
    have h1' : teleport wid pid x1 y1 z1 s = (.ok (),
        { s with tick := s.tick + 1, db := { s.db with player_positions := s.db.player_positions ++ [⟨pid, wid, x1, y1, z1, secondsOfMs (s.timeMsStream s.tick)⟩] } }) := h1
    have h2 := teleport_run wid pid x2 y2 z2
      { s with tick := s.tick + 1, db := { s.db with player_positions := s.db.player_positions ++ [⟨pid, wid, x1, y1, z1, secondsOfMs (s.timeMsStream s.tick)⟩] } }
    refine ⟨_, _, h1', h2, ?_⟩
    dsimp only
    have hany2 : ((s.db.player_positions ++
        [(⟨pid, wid, x1, y1, z1, secondsOfMs (s.timeMsStream s.tick)⟩ : PlayerPosRow)]).any
        (fun r => r.player_id == pid && r.world_id == wid)) = true := by
      rw [List.any_append]
      simp
    rw [if_pos hany2, filter_teleport_upd, List.filter_append, hfilP, List.nil_append]
    simp
  · rw [hcond] at h1
    simp only [if_true] at h1
    rcases hfe : s.db.player_positions.filter
        (fun r => r.player_id == pid && r.world_id == wid) with - | ⟨r0, rest⟩
    · exfalso
      obtain ⟨r, hr, hpr⟩ := List.any_eq_true.mp hcond
      have hmem : r ∈ s.db.player_positions.filter
          (fun r => r.player_id == pid && r.world_id == wid) :=
        List.mem_filter.mpr ⟨hr, hpr⟩
      rw [hfe] at hmem
      cases hmem
    · have hrest : rest = [] := by
        rw [hfe] at hpk
        simp only [List.length_cons] at hpk
        have hlen0 : rest.length = 0 := by omega
        exact List.eq_nil_of_length_eq_zero hlen0
      subst hrest
      have hr0f : r0 ∈ s.db.player_positions.filter
          (fun r => r.player_id == pid && r.world_id == wid) := by
        rw [hfe]
        exact List.mem_cons_self _ _
      have hr0P : r0 ∈ s.db.player_positions := (List.mem_filter.mp hr0f).1
      have hp0 : (r0.player_id == pid && r0.world_id == wid) = true :=
        (List.mem_filter.mp hr0f).2
      have hpids : r0.player_id = pid ∧ r0.world_id = wid := by
        rw [Bool.and_eq_true, beq_iff_eq, beq_iff_eq] at hp0
        exact hp0
      have h1' : teleport wid pid x1 y1 z1 s = (.ok (),
          { s with tick := s.tick + 1, db := { s.db with player_positions := s.db.player_positions.map (fun r => if r.player_id == pid && r.world_id == wid then { r with x := x1, y := y1, z := z1, teleported_at := secondsOfMs (s.timeMsStream s.tick) } else r) } }) := h1
      have h2 := teleport_run wid pid x2 y2 z2
        { s with tick := s.tick + 1, db := { s.db with player_positions := s.db.player_positions.map (fun r => if r.player_id == pid && r.world_id == wid then { r with x := x1, y := y1, z := z1, teleported_at := secondsOfMs (s.timeMsStream s.tick) } else r) } }
      refine ⟨_, _, h1', h2, ?_⟩
      dsimp only
      have hany2 : ((s.db.player_positions.map (fun r =>
          if r.player_id == pid && r.world_id == wid then { r with x := x1, y := y1, z := z1, teleported_at := secondsOfMs (s.timeMsStream s.tick) } else r)).any
          (fun r => r.player_id == pid && r.world_id == wid)) = true := by
        refine List.any_eq_true.mpr ?_
        refine ⟨_, List.mem_map.mpr ⟨r0, hr0P, rfl⟩, ?_⟩
        simp [hp0]
      rw [if_pos hany2, filter_teleport_upd, filter_teleport_upd, hfe]
      simp [hpids.1, hpids.2]

/-- Witness for C6: teleporting player p1 twice in the Aurora world. -/
theorem claim_C6_teleport_upsert_witness :
    ((stateAurora.db.player_positions.filter
      (fun r => r.player_id == "p1" && r.world_id == "world_0")).length ≤ 1 ∧
     ((1 : Rat), (2 : Rat), (3 : Rat)) ≠ ((4 : Rat), (5 : Rat), (6 : Rat))) ∧
    ∃ s1 s2,
      teleport "world_0" "p1" 1 2 3 stateAurora = (.ok (), s1) ∧
      teleport "world_0" "p1" 4 5 6 s1 = (.ok (), s2) ∧
      s2.db.player_positions.filter
          (fun r => r.player_id == "p1" && r.world_id == "world_0") =
        [⟨"p1", "world_0", 4, 5, 6,
          secondsOfMs (stateAurora.timeMsStream (stateAurora.tick + 1))⟩] :=
  ⟨⟨by decide, by decide⟩,
   claim_C6_teleport_upsert "world_0" "p1" 1 2 3 4 5 6 stateAurora
     (by decide) (by decide)⟩




/-- Claim C7: every successful `add_object` call extracts the scale,
rotation and color keys from the property bag — defaulting to 1.0, 0.0
and the owning world's accent color from `THEME_COLORS` with the white
fallback — and exactly the remaining keys survive as the returned
object's free-form properties, stored identically in the inserted row. -/
theorem claim_C7_property_extraction (wid ty nm : String) (x y z : Rat)
    (props : List (String × Val)) (s : PyState) (wrow : WorldRow)
    (obj : WorldObject) (s' : PyState)
    (hok : add_object wid ty nm x y z props s = (.ok obj, s'))
    (hfind : s.db.worlds.find? (fun w => w.id == wid) = some wrow) :
    obj.scale = (props.lookup "scale").getD (Val.num 1) ∧
    obj.rotation = (props.lookup "rotation").getD (Val.num 0) ∧
    obj.color = (props.lookup "color").getD
      (Val.str ((THEME_COLORS.lookup wrow.theme).getD "#FFFFFF")) ∧
    obj.properties = props.filter (fun kv => kv.1 ∉ ["scale", "rotation", "color"]) ∧
    (∀ k, k ∉ (["scale", "rotation", "color"] : List String) →
      obj.properties.lookup k = props.lookup k) ∧
    (∀ k, k ∈ (["scale", "rotation", "color"] : List String) →
      obj.properties.lookup k = none) ∧
    ∃ row, s'.db.world_objects = s.db.world_objects ++ [row] ∧
      row.scale = obj.scale ∧ row.rotation = obj.rotation ∧
      row.color = obj.color ∧ row.properties = obj.properties := by
  by_cases hty : ty ∈ OBJECT_TYPES
  · rw [add_object_run, if_pos hty, hfind] at hok
    dsimp only at hok
    cases hcol : s.db.world_objects.any (fun o =>
        o.id == (addedRow wid ty nm x y z props wrow.theme (s.timeMsStream s.tick)).id)
    · rw [hcol] at hok
      simp only [Bool.false_eq_true, if_false, Prod.mk.injEq, Except.ok.injEq] at hok
      obtain ⟨hobj, hs⟩ := hok
      subst hobj
      subst hs
      refine ⟨rfl, rfl, rfl, rfl, ?_, ?_, ?_⟩
      · intro k hk
        exact lookup_filter_of_not_mem ["scale", "rotation", "color"] props k hk
      · intro k hk
        exact lookup_filter_of_mem ["scale", "rotation", "color"] props k hk
      · exact ⟨addedRow wid ty nm x y z props wrow.theme (s.timeMsStream s.tick),
          rfl, rfl, rfl, rfl, rfl⟩
    · rw [hcol] at hok
      simp at hok
  · rw [add_object_run, if_neg hty] at hok
    simp at hok

/-- Witness for C7: adding a tree to the Aurora world with an explicit
color and one free-form key. -/
theorem claim_C7_property_extraction_witness :
    (add_object "world_0" "tree" "t1" 1 2 3 c7props stateAurora =
      (.ok (objOfRow c7row), c7state) ∧
     stateAurora.db.worlds.find? (fun w => w.id == "world_0") = some auroraRow) ∧
    ((objOfRow c7row).scale = (c7props.lookup "scale").getD (Val.num 1) ∧
     (objOfRow c7row).rotation = (c7props.lookup "rotation").getD (Val.num 0) ∧
     (objOfRow c7row).color = (c7props.lookup "color").getD
       (Val.str ((THEME_COLORS.lookup auroraRow.theme).getD "#FFFFFF")) ∧
     (objOfRow c7row).properties =
       c7props.filter (fun kv => kv.1 ∉ ["scale", "rotation", "color"]) ∧
     (∀ k, k ∉ (["scale", "rotation", "color"] : List String) →
       (objOfRow c7row).properties.lookup k = c7props.lookup k) ∧
     (∀ k, k ∈ (["scale", "rotation", "color"] : List String) →
       (objOfRow c7row).properties.lookup k = none) ∧
     ∃ row, c7state.db.world_objects = stateAurora.db.world_objects ++ [row] ∧
       row.scale = (objOfRow c7row).scale ∧ row.rotation = (objOfRow c7row).rotation ∧
       row.color = (objOfRow c7row).color ∧
       row.properties = (objOfRow c7row).properties) :=
  ⟨⟨by rw [add_object_run]; rfl, by decide⟩,
   claim_C7_property_extraction "world_0" "tree" "t1" 1 2 3 c7props stateAurora
     auroraRow (objOfRow c7row) c7state (by rw [add_object_run]; rfl) (by decide)⟩
